import Mathlib

/-!
Verification development for the FAUCET-style Valve (src/faucet/valve.py).

The Valve translates datapath lifecycle events and packet-ins into ordered
lists of OpenFlow messages.  Python objects become Lean structures, mutation
becomes explicit state passing, dictionaries become association lists with
Nat keys, and fallible dictionary indexing (Python KeyError) and the
stacking+routing assertion become an Except result.  Collaborator modules
that are not part of this repository snapshot (the DP/VLAN/Port config
classes, valve_host, valve_flood, valve_route, valve_of, valve_acl,
valve_packet) are modelled from the specification; every such definition is
marked with a doc comment beginning "Modelled from the spec:".
-/

set_option linter.unusedVariables false

namespace Faucet

/-- OpenFlow table identifiers of the FAUCET pipeline: the named tables
vlan, port_acl, vlan_acl, eth_src, eth_dst, ipv4_fib, ipv6_fib, vip and
flood, plus the wildcard union used for whole-datapath flow deletes. -/
inductive TableId
  | vlan
  | port_acl
  | vlan_acl
  | eth_src
  | eth_dst
  | ipv4_fib
  | ipv6_fib
  | vip
  | flood
  | wildcard
deriving DecidableEq, Repr

/-- Modelled from the spec: dp.all_valve_tables(), the configured tables that
receive a default drop (every named pipeline table; the wildcard union is
not a real table). -/
def allValveTables : List TableId :=
  [.vlan, .port_acl, .vlan_acl, .eth_src, .eth_dst, .ipv4_fib, .ipv6_fib, .vip, .flood]

/-- Modelled from the spec: dp.in_port_tables(), the subset of tables whose
matches include in_port (used by the per-port wipe). -/
def inPortTables : List TableId := [.vlan, .port_acl, .eth_src, .flood]

/-- Modelled from the spec: dp.vlan_match_tables(), the tables that match on
VLAN (used by the per-VLAN wipe). -/
def vlanMatchTables : List TableId := [.vlan, .vlan_acl, .eth_src, .eth_dst, .flood]

/-- Modelled from the spec: an OXM match built from semantic fields
(FlowTable.match in section 4.1).  Unset fields are wildcards. -/
structure FlowMatch where
  in_port : Option Nat := none
  vlan_vid : Option Nat := none
  eth_src : Option Nat := none
  eth_dst : Option Nat := none
  eth_type : Option Nat := none
deriving DecidableEq, Repr

/-- Modelled from the spec: ofp.OFPVID_PRESENT. -/
def ofpvidPresent : Nat := 4096

/-- Modelled from the spec: encoding of a VLAN vid in an OXM vlan_vid field;
a real vid carries the PRESENT bit, OFPVID_NONE (0, untagged) does not. -/
def encodeVid (vid : Nat) : Nat := if vid == 0 then 0 else ofpvidPresent + vid

/-- Modelled from the spec: the broadcast MAC address (mac.BROADCAST_STR). -/
def broadcastMac : Nat := 0xffffffffffff

/-- Modelled from the spec: the two STP BPDU destination MACs dropped by
_add_default_drop_flows. -/
def bpduMac1 : Nat := 0x0180C2000000

/-- Modelled from the spec: second BPDU MAC of _add_default_drop_flows. -/
def bpduMac2 : Nat := 0x01000CCCCCCD

/-- Modelled from the spec: ether.ETH_TYPE_LLDP. -/
def ethTypeLLDP : Nat := 0x88CC

/-- Modelled from the spec: a MAC address is unicast when the low bit of its
first octet is clear (valve_packet.mac_addr_is_unicast). -/
def macIsUnicast (m : Nat) : Bool := (m / 2 ^ 40) % 2 == 0

/-- Modelled from the spec: valve_of.ignore_port, true for reserved OpenFlow
port numbers (LOCAL, CONTROLLER, ...). -/
def ignorePort (n : Nat) : Bool := n > 0xF0000000

/-- Flow actions appearing in apply-actions instruction lists. -/
inductive Action
  | output (port : Nat)
  | pushVlan (vid : Nat)
deriving DecidableEq, Repr

/-- OpenFlow instructions attached to flowmods. -/
inductive Instr
  | applyActions (acts : List Action)
  | gotoTable (t : TableId)
deriving DecidableEq, Repr

/-- Modelled from the spec: opaque messages produced by the per-IP-version
route managers (valve_route), which are external collaborators: VIP punt and
FIB installation on add_faucet_vip, router advertisements, gateway
resolution probes. -/
inductive RouteMsg
  | vipAdd (ipv : Nat) (vid : Nat) (vipAddr : Nat)
  | advertiseRA (vid : Nat)
  | resolveGw (vid : Nat) (ipv : Nat)
deriving DecidableEq, Repr

/-- OpenFlow messages emitted by the Valve.  flowDel/flowMod/flowDrop/
flowController mirror the FlowTable builders of section 4.1; floodRule is
the per-ingress-port flood flow built by valve_flood; the meter, group,
route-manager and ACL-config constructors stand for the collaborator-built
messages that the Valve forwards opaquely. -/
inductive OFMsg
  | flowDel (t : TableId) (m : FlowMatch) (outPort : Option Nat)
  | flowMod (t : TableId) (m : FlowMatch) (priority : Nat) (inst : List Instr)
  | flowDrop (t : TableId) (m : FlowMatch) (priority : Nat) (hardTimeout : Option Nat)
  | flowController (t : TableId) (priority : Nat) (inst : List Instr)
  | floodRule (vid : Nat) (inPort : Nat) (outPorts : List Nat) (priority : Nat) (modifyFlag : Bool)
  | meterDelAll
  | ppsMeterDel
  | ppsMeterAdd (pps : Nat)
  | meterEntry (tok : Nat)
  | groupsDelAll
  | routeMgr (r : RouteMsg)
  | aclConfig (tok : Nat)
deriving DecidableEq, Repr

/-- Modelled from the spec: one entry of a VLAN's host_cache,
HostCacheEntry{port, ts, edge} (ports collapsed to their numbers per the
design note on cyclic back-references). -/
structure HostCacheEntry where
  portNum : Nat
  cacheTime : Nat
  edge : Bool
deriving DecidableEq, Repr

/-- Modelled from the spec: the VLAN configuration object.  tagged/untagged
hold member port numbers; faucet_vips are split per IP version; host_cache
(MAC to entry, an association list) and learn_ban_count are the dynamic
fields. -/
structure Vlan where
  vid : Nat
  tagged : List Nat := []
  untagged : List Nat := []
  faucet_mac : Nat := 0x0E0000000001
  faucet_vips4 : List Nat := []
  faucet_vips6 : List Nat := []
  max_hosts : Option Nat := none
  host_cache : List (Nat × HostCacheEntry) := []
  learn_ban_count : Nat := 0
deriving DecidableEq, Repr

/-- Modelled from the spec: vlan.get_ports(), the member port numbers. -/
def Vlan.portNums (vl : Vlan) : List Nat := vl.tagged ++ vl.untagged

/-- Modelled from the spec: vlan.ipvs(), the IP versions with configured
faucet VIPs. -/
def Vlan.ipvs (vl : Vlan) : List Nat :=
  (if vl.faucet_vips4.isEmpty then [] else [4]) ++ (if vl.faucet_vips6.isEmpty then [] else [6])

/-- Modelled from the spec: vlan.faucet_vips_by_ipv(ipv). -/
def Vlan.vipsByIpv (vl : Vlan) (ipv : Nat) : List Nat :=
  if ipv == 4 then vl.faucet_vips4 else if ipv == 6 then vl.faucet_vips6 else []

/-- Modelled from the spec: VLAN equality ignores the dynamic fields
(host_cache, learn_ban_count); only structural configuration is compared. -/
def vlanStructEq (a b : Vlan) : Bool :=
  a.vid == b.vid && a.tagged == b.tagged && a.untagged == b.untagged &&
  a.faucet_mac == b.faucet_mac && a.faucet_vips4 == b.faucet_vips4 &&
  a.faucet_vips6 == b.faucet_vips6 && a.max_hosts == b.max_hosts

/-- Modelled from the spec: vlan.merge_dyn copies the dynamic state of the
old VLAN forward into the (structurally equal) new VLAN across a reload. -/
def Vlan.mergeDyn (newV oldV : Vlan) : Vlan :=
  { newV with host_cache := oldV.host_cache, learn_ban_count := oldV.learn_ban_count }

/-- Modelled from the spec: the Port configuration object.  VLAN references
collapse to vids; phys_up and learn_ban_count are the runtime fields. -/
structure Port where
  number : Nat
  native_vlan : Option Nat := none
  tagged_vlans : List Nat := []
  acl_in : Option Nat := none
  stack : Option String := none
  mirror : Option Nat := none
  mirror_destination : Bool := false
  max_hosts : Option Nat := none
  permanent_learn : Bool := false
  phys_up : Bool := false
  learn_ban_count : Nat := 0
deriving DecidableEq, Repr

/-- Modelled from the spec: port.running() is phys_up for a configured
port. -/
def Port.isRunning (p : Port) : Bool := p.phys_up

/-- Modelled from the spec: Port equality compares configured fields only;
the runtime fields phys_up and learn_ban_count are excluded, consistent
with warm-reload idempotence (spec sections 3 and 8.7). -/
def portStructEq (a b : Port) : Bool :=
  a.number == b.number && a.native_vlan == b.native_vlan &&
  a.tagged_vlans == b.tagged_vlans && a.acl_in == b.acl_in &&
  a.stack == b.stack && a.mirror == b.mirror &&
  a.mirror_destination == b.mirror_destination && a.max_hosts == b.max_hosts &&
  a.permanent_learn == b.permanent_learn

/-- Modelled from the spec: one ACL rule descriptor as consumed by
valve_acl.build_acl_entry: a 5-tuple-style match, an allow/deny outcome and
opaque extra messages (meter bindings, mirror outputs). -/
structure AclRule where
  matchSpec : FlowMatch := {}
  allow : Bool := true
  extra : List Nat := []
deriving DecidableEq, Repr

/-- Modelled from the spec: a named ACL, a list of rule descriptors. -/
structure Acl where
  rules : List AclRule := []
deriving DecidableEq, Repr

/-- The datapath configuration consumed by the Valve (spec section 3), with
dictionaries as Nat-keyed association lists and the runtime `running` flag. -/
structure DP where
  dp_id : Nat
  name : String := "dp"
  vlans : List (Nat × Vlan) := []
  ports : List (Nat × Port) := []
  acls : List (Nat × Acl) := []
  meters : List (Nat × Nat) := []
  stack : Option String := none
  group_table : Bool := false
  packetin_pps : Option Nat := none
  ignore_learn_ins : Nat := 0
  advertise_interval : Nat := 0
  timeout : Nat := 300
  learn_ban_timeout : Nat := 10
  drop_broadcast_source_address : Bool := false
  drop_spoofed_faucet_mac : Bool := false
  drop_bpdu : Bool := false
  drop_lldp : Bool := false
  lowest_priority : Nat := 0
  low_priority : Nat := 9000
  high_priority : Nat := 9098
  highest_priority : Nat := 9099
  port_acl_in : List (Nat × Nat) := []
  vlan_acl_in : List (Nat × Nat) := []
  running : Bool := false
deriving DecidableEq, Repr

/-- Replace the VLAN stored under vid (dictionary item assignment). -/
def DP.updVlan (dp : DP) (vid : Nat) (f : Vlan → Vlan) : DP :=
  { dp with vlans := dp.vlans.map (fun kv => if kv.1 == vid then (kv.1, f kv.2) else kv) }

/-- Replace the Port stored under a port number. -/
def DP.updPort (dp : DP) (n : Nat) (f : Port → Port) : DP :=
  { dp with ports := dp.ports.map (fun kv => if kv.1 == n then (kv.1, f kv.2) else kv) }

/-- Lookup of a VLAN with a placeholder default, for keys the code has
already established to be present. -/
def DP.vlanD (dp : DP) (vid : Nat) : Vlan :=
  (dp.vlans.lookup vid).getD { vid := vid }

/-- Modelled from the spec: dp.stack_ports, the configured ports with a
stack neighbor. -/
def DP.stackPortNums (dp : DP) : List Nat :=
  (dp.ports.filter (fun kv => kv.2.stack.isSome)).map Prod.fst

/-- Modelled from the spec: dp.shortest_path_port(dp_name), the local stack
port on the shortest path towards the named datapath; abstracted as the
first configured stack port. -/
def DP.shortestPathPort (dp : DP) (dpName : String) : Nat :=
  dp.stackPortNums.headD 0

/-- The Valve state: the current DP, the L3 routing flag and the packet-in
rate-limit and advertisement clocks (src/faucet/valve.py Valve.__init__). -/
structure Valve where
  dp : DP
  l3 : Bool := false
  packetInCountSec : Nat := 0
  lastPacketInSec : Nat := 0
  lastAdvertiseSec : Nat := 0
deriving DecidableEq, Repr

/-- Errors that can cross the Valve boundary: the stacking+routing
assertion (ConfigContradiction) and Python KeyError on an unguarded
dictionary lookup. -/
inductive ValveErr
  | configContradiction
  | keyError
deriving DecidableEq, Repr

/-- Valve._delete_all_valve_flows: wildcard flow delete, then meter delete
when meters are configured, then group delete when the group table is in
use. -/
def deleteAllValveFlows (dp : DP) : List OFMsg :=
  [OFMsg.flowDel .wildcard {} none]
    ++ (if dp.meters.isEmpty then [] else [OFMsg.meterDelAll])
    ++ (if dp.group_table then [OFMsg.groupsDelAll] else [])

/-- Valve._delete_all_port_match_flows: per in_port-matching table, delete
flows matching the port. -/
def deleteAllPortMatchFlows (dp : DP) (portNum : Nat) : List OFMsg :=
  inPortTables.map (fun t => OFMsg.flowDel t { in_port := some portNum } none)

/-- Valve._add_default_drop_flows: a lowest-priority drop in every table,
then the optional broadcast-source, spoofed-faucet-MAC, BPDU and LLDP drops
in the vlan table. -/
def addDefaultDropFlows (dp : DP) : List OFMsg :=
  allValveTables.map (fun t => OFMsg.flowDrop t {} dp.lowest_priority none)
    ++ (if dp.drop_broadcast_source_address then
          [OFMsg.flowDrop .vlan { eth_src := some broadcastMac } dp.highest_priority none]
        else [])
    ++ (if dp.drop_spoofed_faucet_mac then
          dp.vlans.map (fun kv =>
            OFMsg.flowDrop .vlan { eth_src := some kv.2.faucet_mac } dp.high_priority none)
        else [])
    ++ (if dp.drop_bpdu then
          [OFMsg.flowDrop .vlan { eth_dst := some bpduMac1 } dp.highest_priority none,
           OFMsg.flowDrop .vlan { eth_dst := some bpduMac2 } dp.highest_priority none]
        else [])
    ++ (if dp.drop_lldp then
          [OFMsg.flowDrop .vlan { eth_type := some ethTypeLLDP } dp.highest_priority none]
        else [])

/-- Modelled from the spec: valve_acl.build_acl_entry(rule, allow_inst, ...)
returning (match, instructions, extra messages); the terminating
instruction is the supplied allow-goto or drop (empty). -/
def buildAclEntry (rule : AclRule) (allowInst : Instr) :
    FlowMatch × List Instr × List OFMsg :=
  (rule.matchSpec, if rule.allow then [allowInst] else [], rule.extra.map OFMsg.aclConfig)

/-- ACL rule installation loop shared by _add_vlan_acl and _port_add_acl:
extra messages then the rule flowmod, at priorities descending from the
start priority. -/
def aclRulesMsgs (rules : List AclRule) (prio : Nat) (allowInst : Instr) (t : TableId) :
    List OFMsg :=
  match rules with
  | [] => []
  | r :: rest =>
    let e := buildAclEntry r allowInst
    e.2.2 ++ [OFMsg.flowMod t e.1 prio e.2.1] ++ aclRulesMsgs rest (prio - 1) allowInst t

/-- Valve._add_vlan_acl: install the VLAN's bound ACL (if any) in the
vlan_acl table, allow-goto eth_src, priorities descending from
highest_priority. -/
def addVlanAclMsgs (dp : DP) (vid : Nat) : List OFMsg :=
  match dp.vlan_acl_in.lookup vid with
  | none => []
  | some aclNum =>
    aclRulesMsgs ((dp.acls.lookup aclNum).getD {}).rules dp.highest_priority
      (Instr.gotoTable .eth_src) .vlan_acl

/-- Valve._add_vlan_flood_flow: eth_dst fallback to the flood table at low
priority. -/
def addVlanFloodFlow (dp : DP) : List OFMsg :=
  [OFMsg.flowMod .eth_dst {} dp.low_priority [Instr.gotoTable .flood]]

/-- Valve._add_controller_learn_flow: eth_src default send-to-controller at
low priority, goto eth_dst. -/
def addControllerLearnFlow (dp : DP) : List OFMsg :=
  [OFMsg.flowController .eth_src dp.low_priority [Instr.gotoTable .eth_dst]]

/-- Valve._add_packetin_meter: optional packet-in pps meter delete+add. -/
def addPacketinMeter (dp : DP) : List OFMsg :=
  match dp.packetin_pps with
  | some pps => [OFMsg.ppsMeterDel, OFMsg.ppsMeterAdd pps]
  | none => []

/-- Valve._add_default_flows: delete everything, packet-in meter, configured
meters, default drops, then the eth_dst flood fallback. -/
def addDefaultFlows (dp : DP) : List OFMsg :=
  deleteAllValveFlows dp
    ++ addPacketinMeter dp
    ++ dp.meters.map (fun kv => OFMsg.meterEntry kv.2)
    ++ addDefaultDropFlows dp
    ++ addVlanFloodFlow dp

/-- Modelled from the spec: valve_flood.ValveFloodManager.build_flood_rules:
for each member port of the VLAN, a flood-table rule at low priority
outputting to the other member ports; modifyFlag selects idempotent update
messages. -/
def buildFloodRules (dp : DP) (vl : Vlan) (modifyFlag : Bool) : List OFMsg :=
  vl.portNums.map (fun p =>
    OFMsg.floodRule vl.vid p (vl.portNums.filter (fun q => q != p)) dp.low_priority modifyFlag)

/-- Modelled from the spec: route_manager.add_faucet_vip(vlan, vip) punts
the VIP to the controller and installs the connected route; opaque to the
Valve. -/
def addFaucetVipMsgs (ipv vid vipAddr : Nat) : List OFMsg :=
  [OFMsg.routeMgr (.vipAdd ipv vid vipAddr)]

/-- Valve._add_faucet_vips: per VIP, assert that stacking is not configured
(ConfigContradiction otherwise), delegate to the route manager, and set the
L3 flag. -/
def addFaucetVips (v : Valve) (ipv vid : Nat) (vips : List Nat) :
    Except ValveErr (Valve × List OFMsg) :=
  match vips with
  | [] => .ok (v, [])
  | vipAddr :: rest =>
    if v.dp.stack.isSome then .error .configContradiction
    else
      match addFaucetVips { v with l3 := true } ipv vid rest with
      | .error e => .error e
      | .ok (v', msgs) => .ok (v', addFaucetVipMsgs ipv vid vipAddr ++ msgs)

/-- Modelled from the spec: vlan.mirror_destination_ports(), the VLAN member
ports flagged as mirror destinations. -/
def mirrorDestinationPortNums (dp : DP) (vl : Vlan) : List Nat :=
  vl.portNums.filter (fun p =>
    match dp.ports.lookup p with
    | some port => port.mirror_destination
    | none => false)

/-- The pure message part of Valve._add_vlan: flood rules, VLAN ACL rules,
then faucet VIPs per configured IP version. -/
def addVlanMsgs (dp : DP) (vl : Vlan) : List OFMsg :=
  buildFloodRules dp vl false
    ++ addVlanAclMsgs dp vl.vid
    ++ vl.ipvs.flatMap (fun ipv => (vl.vipsByIpv ipv).flatMap (addFaucetVipMsgs ipv vl.vid))

/-- The per-IP-version VIP loop of Valve._add_vlan (for ipv in
vlan.ipvs(): _add_faucet_vips). -/
def addVlanIpvsLoop (v : Valve) (vl : Vlan) (ipvList : List Nat) :
    Except ValveErr (Valve × List OFMsg) := do
  match ipvList with
  | [] => return (v, [])
  | ipv :: rest =>
    let (v1, m) ← addFaucetVips v ipv vl.vid (vl.vipsByIpv ipv)
    let (v2, m') ← addVlanIpvsLoop v1 vl rest
    return (v2, m ++ m')

/-- Valve._add_vlan: collect the VLAN's member and mirror-destination port
numbers, then emit flood rules, ACL rules and VIP adds (which may set the
L3 flag or raise the stacking+routing assertion). -/
def addVlanOp (v : Valve) (vl : Vlan) :
    Except ValveErr (Valve × List OFMsg × List Nat) := do
  let portNums := vl.portNums ++ mirrorDestinationPortNums v.dp vl
  let flood := buildFloodRules v.dp vl false
  let acl := addVlanAclMsgs v.dp vl.vid
  let (v', vipMsgs) ← addVlanIpvsLoop v vl vl.ipvs
  return (v', flood ++ acl ++ vipMsgs, portNums)

/-- Valve._del_vlan: delete flows matching the VLAN from every VLAN-matching
table other than the vlan table itself. -/
def delVlanMsgs (vl : Vlan) : List OFMsg :=
  (vlanMatchTables.filter (fun t => t != .vlan)).map
    (fun t => OFMsg.flowDel t { vlan_vid := some (encodeVid vl.vid) } none)

/-- Valve._port_add_acl: on a cold start of the port first wipe its
port_acl flows; then install the bound ACL's rules (allow-goto vlan,
priorities descending from highest) or the default allow-goto for ports
without an ACL. -/
def portAddAclMsgs (dp : DP) (portNum : Nat) (coldStart : Bool) : List OFMsg :=
  let inPortMatch : FlowMatch := { in_port := some portNum }
  (if coldStart then [OFMsg.flowDel .port_acl inPortMatch none] else [])
    ++ match dp.port_acl_in.lookup portNum with
       | some aclNum =>
         aclRulesMsgs ((dp.acls.lookup aclNum).getD {}).rules dp.highest_priority
           (Instr.gotoTable .vlan) .port_acl
       | none =>
         [OFMsg.flowMod .port_acl inPortMatch dp.highest_priority [Instr.gotoTable .vlan]]

/-- Valve._find_forwarding_table: vlan_acl when the VLAN has a bound ACL,
else eth_src. -/
def findForwardingTable (dp : DP) (vl : Vlan) : TableId :=
  if (dp.vlan_acl_in.lookup vl.vid).isSome then .vlan_acl else .eth_src

/-- Valve._port_add_vlan_tagged via _port_add_vlan_rules: a vlan-table
ingress rule for (in_port, vid) at low priority, optionally prefixed by the
mirror actions. -/
def portAddVlanTaggedMsgs (dp : DP) (portNum : Nat) (vl : Vlan) (mirrorActs : List Action) :
    List OFMsg :=
  let inst := (if mirrorActs.isEmpty then [] else [Instr.applyActions mirrorActs])
    ++ [Instr.gotoTable (findForwardingTable dp vl)]
  [OFMsg.flowMod .vlan { in_port := some portNum, vlan_vid := some (encodeVid vl.vid) }
    dp.low_priority inst]

/-- Valve._port_add_vlan_untagged: match untagged frames on the port, push
the native vid (after the mirror actions) and forward. -/
def portAddVlanUntaggedMsgs (dp : DP) (portNum : Nat) (vl : Vlan) (mirrorActs : List Action) :
    List OFMsg :=
  let inst := [Instr.applyActions (mirrorActs ++ [Action.pushVlan vl.vid]),
               Instr.gotoTable (findForwardingTable dp vl)]
  [OFMsg.flowMod .vlan { in_port := some portNum, vlan_vid := some 0 } dp.low_priority inst]

/-- Valve._port_add_vlans: tagged VLAN rules then the untagged native-VLAN
rule; vids not present in the configuration are skipped (the config parser
guarantees consistency). -/
def portAddVlansMsgs (dp : DP) (portNum : Nat) (mirrorActs : List Action)
    (taggedVids untaggedVids : List Nat) : List OFMsg :=
  taggedVids.flatMap (fun vid =>
    match dp.vlans.lookup vid with
    | some vl => portAddVlanTaggedMsgs dp portNum vl mirrorActs
    | none => [])
    ++ untaggedVids.flatMap (fun vid =>
      match dp.vlans.lookup vid with
      | some vl => portAddVlanUntaggedMsgs dp portNum vl mirrorActs
      | none => [])

/-- Union of vid lists preserving first-occurrence order, mirroring the
Python set accumulation of vlans_with_ports_added. -/
def vidUnion (l r : List Nat) : List Nat :=
  l.foldr (fun x acc => if acc.contains x then acc else x :: acc) r

/-- The per-port body of Valve.ports_add: skip ignored and unconfigured
ports, mark phys_up, drop all ingress on mirror-destination ports, else
install the port ACL and VLAN ingress rules (stack ports accept any VLAN);
returns the updated DP, the messages and the vids of VLANs gaining a
port. -/
def portsAddLoop (dp : DP) (nums : List Nat) : DP × List OFMsg × List Nat :=
  match nums with
  | [] => (dp, [], [])
  | n :: rest =>
    if ignorePort n then portsAddLoop dp rest
    else
      match dp.ports.lookup n with
      | none => portsAddLoop dp rest
      | some port =>
        let dp1 := dp.updPort n (fun p => { p with phys_up := true })
        let port := { port with phys_up := true }
        if !port.isRunning then portsAddLoop dp1 rest
        else if port.mirror_destination then
          let (dp2, m, vs) := portsAddLoop dp1 rest
          (dp2, OFMsg.flowDrop .vlan { in_port := some n } dp1.highest_priority none :: m, vs)
        else
          let aclMsgs := portAddAclMsgs dp1 n false
          let taggedVids := port.tagged_vlans
          let untaggedVids := port.native_vlan.toList
          let portMsgsVids :=
            if port.stack.isSome then
              ([OFMsg.flowMod .vlan { in_port := some n } dp1.low_priority
                  [Instr.gotoTable .eth_src]],
               dp1.vlans.map Prod.fst)
            else
              let mirrorActs := match port.mirror with
                | some mp => [Action.output mp]
                | none => []
              (portAddVlansMsgs dp1 n mirrorActs taggedVids untaggedVids,
               taggedVids ++ untaggedVids)
          let (dp2, m, vs) := portsAddLoop dp1 rest
          (dp2, aclMsgs ++ portMsgsVids.1 ++ m, vidUnion portMsgsVids.2 vs)

/-- Valve.ports_add: ignore a foreign dp_id; otherwise run the per-port
loop and, when not cold starting, rebuild flood rules for the VLANs that
gained ports. -/
def portsAdd (dp : DP) (dpId : Nat) (nums : List Nat) (coldStart : Bool) :
    DP × List OFMsg :=
  if dpId != dp.dp_id then (dp, [])
  else
    let (dp', msgs, vids) := portsAddLoop dp nums
    if coldStart then (dp', msgs)
    else
      (dp', msgs ++ vids.flatMap (fun vid =>
        match dp'.vlans.lookup vid with
        | some vl => buildFloodRules dp' vl false
        | none => []))

/-- Valve._get_eth_srcs_learned_on_port: the MACs cached on the port across
its native and tagged VLANs' host caches. -/
def getEthSrcsLearnedOnPort (dp : DP) (portNo : Nat) : List Nat :=
  match dp.ports.lookup portNo with
  | none => []
  | some port =>
    (port.native_vlan.toList ++ port.tagged_vlans).flatMap (fun vid =>
      match dp.vlans.lookup vid with
      | none => []
      | some vl => (vl.host_cache.filter (fun kv => kv.2.portNum == portNo)).map Prod.fst)

/-- Valve._port_delete_flows: wipe the port's in_port matches from all
in_port tables, delete eth_dst flows outputting to the port, and for
permanent-learn ports delete the eth_src entries of its learned MACs. -/
def portDeleteFlowsMsgs (dp : DP) (port : Port) (oldEthSrcs : List Nat) : List OFMsg :=
  deleteAllPortMatchFlows dp port.number
    ++ [OFMsg.flowDel .eth_dst {} (some port.number)]
    ++ (if port.permanent_learn then
          oldEthSrcs.flatMap (fun macAddr =>
            [OFMsg.flowDel .eth_src { eth_src := some macAddr } none])
        else [])

/-- The per-port body of Valve.ports_delete: skip ignored and unconfigured
ports, mark phys_down, emit the delete flows, and collect the vids of
VLANs losing a port. -/
def portsDeleteLoop (dp : DP) (nums : List Nat) : DP × List OFMsg × List Nat :=
  match nums with
  | [] => (dp, [], [])
  | n :: rest =>
    if ignorePort n then portsDeleteLoop dp rest
    else
      match dp.ports.lookup n with
      | none => portsDeleteLoop dp rest
      | some port =>
        let dp1 := dp.updPort n (fun p => { p with phys_up := false })
        let delMsgs := portDeleteFlowsMsgs dp1 port (getEthSrcsLearnedOnPort dp1 n)
        let vids := port.tagged_vlans ++ port.native_vlan.toList
        let (dp2, m, vs) := portsDeleteLoop dp1 rest
        (dp2, delMsgs ++ m, vidUnion vids vs)

/-- Valve.ports_delete: ignore a foreign dp_id; otherwise run the per-port
loop and rebuild flood rules with modify semantics for the VLANs that lost
ports. -/
def portsDelete (dp : DP) (dpId : Nat) (nums : List Nat) : DP × List OFMsg :=
  if dpId != dp.dp_id then (dp, [])
  else
    let (dp', msgs, vids) := portsDeleteLoop dp nums
    (dp', msgs ++ vids.flatMap (fun vid =>
      match dp'.vlans.lookup vid with
      | some vl => buildFloodRules dp' vl true
      | none => []))

/-- The per-VLAN loop of Valve._add_ports_and_vlans. -/
def addVlansLoop (v : Valve) (vls : List (Nat × Vlan)) :
    Except ValveErr (Valve × List OFMsg × List Nat) := do
  match vls with
  | [] => return (v, [], [])
  | kv :: rest =>
    let (v1, m, ns) ← addVlanOp v kv.2
    let (v2, m', ns') ← addVlansLoop v1 rest
    return (v2, m ++ m', vidUnion ns ns')

/-- Valve._add_ports_and_vlans: collect stack ports, configure every VLAN
(collecting its ports), add discovered-but-unconfigured up ports, then
configure all collected ports with cold_start semantics. -/
def addPortsAndVlans (v : Valve) (discovered : List Nat) :
    Except ValveErr (Valve × List OFMsg) := do
  let stackNums := v.dp.stackPortNums
  let (v1, vlanMsgs, vlanPortNums) ← addVlansLoop v v.dp.vlans
  let allPortNums := vidUnion stackNums vlanPortNums
  let allPortNums := allPortNums
    ++ (discovered.filter (fun n => !ignorePort n && !allPortNums.contains n))
  let (dp', portMsgs) := portsAdd v1.dp v1.dp.dp_id allPortNums true
  return ({ v1 with dp := dp' }, vlanMsgs ++ portMsgs)

/-- Valve.datapath_connect: ignore a foreign dp_id; otherwise default
flows, ports and VLANs, the controller-learn flow, and set running. -/
def datapathConnect (v : Valve) (dpId : Nat) (discovered : List Nat) :
    Except ValveErr (Valve × List OFMsg) :=
  if dpId != v.dp.dp_id then .ok (v, [])
  else do
    let m1 := addDefaultFlows v.dp
    let (v1, m2) ← addPortsAndVlans v discovered
    let m3 := addControllerLearnFlow v1.dp
    return ({ v1 with dp := { v1.dp with running := true } }, m1 ++ m2 ++ m3)

/-- Valve.datapath_disconnect: flip running off (no flow mods). -/
def datapathDisconnect (v : Valve) (dpId : Nat) : Valve :=
  if dpId != v.dp.dp_id then v
  else { v with dp := { v.dp with running := false } }

/-- Packet metadata delivered with a packet-in (valve.py PacketMeta), with
ports and VLANs collapsed to their numbers.  The outcomes of the external
route managers for this packet (control_plane_handler and
add_host_fib_route_from_pkt of valve_route, collaborators outside this
repository) are carried as oracle fields of the packet. -/
structure PacketMeta where
  portNum : Nat
  vlanVid : Nat
  eth_src : Nat
  eth_dst : Nat
  ctrlPlaneResp : List OFMsg := []
  fibResp : List OFMsg := []
deriving DecidableEq, Repr

/-- Valve.control_plane_handler: consult the route managers only when the
frame is addressed to the FAUCET MAC or to a non-unicast destination. -/
def controlPlaneHandler (vl : Vlan) (pm : PacketMeta) : List OFMsg :=
  if pm.eth_dst == vl.faucet_mac || !macIsUnicast pm.eth_dst then pm.ctrlPlaneResp else []

/-- Valve._known_up_dpid_and_port: our dp_id, a non-reserved known port,
and the datapath running. -/
def knownUpDpidAndPort (v : Valve) (dpId inPort : Nat) : Bool :=
  dpId == v.dp.dp_id && !ignorePort inPort && v.dp.running
    && (v.dp.ports.lookup inPort).isSome

/-- Valve._rate_limit_packet_ins: reset the per-second counter on a
wall-clock tick, increment it, and report whether this packet-in falls on
an ignore_learn_ins multiple. -/
def rateLimitPacketIns (v : Valve) (nowSec : Nat) : Valve × Bool :=
  let v1 := if v.lastPacketInSec != nowSec then
      { v with lastPacketInSec := nowSec, packetInCountSec := 0 }
    else v
  let v2 := { v1 with packetInCountSec := v1.packetInCountSec + 1 }
  (v2, if v2.dp.ignore_learn_ins != 0 then
      v2.packetInCountSec % v2.dp.ignore_learn_ins == 0
    else false)

/-- Modelled from the spec: valve_host temp_ban_host_learning_on_port: a
high-priority eth_src drop matching the port with the learn-ban hard
timeout. -/
def tempBanOnPortMsg (dp : DP) (portNum : Nat) : OFMsg :=
  OFMsg.flowDrop .eth_src { in_port := some portNum } dp.high_priority
    (some dp.learn_ban_timeout)

/-- Modelled from the spec: valve_host temp_ban_host_learning_on_vlan: the
analogous eth_src drop matching the VLAN. -/
def tempBanOnVlanMsg (dp : DP) (vid : Nat) : OFMsg :=
  OFMsg.flowDrop .eth_src { vlan_vid := some (encodeVid vid) } dp.high_priority
    (some dp.learn_ban_timeout)

/-- Valve._port_learn_ban_rules: when the count of MACs learned on the port
equals its max_hosts, emit the port ban and bump the port's
learn_ban_count. -/
def portLearnBanRules (v : Valve) (pm : PacketMeta) : Valve × List OFMsg :=
  let oldEthSrcs := getEthSrcsLearnedOnPort v.dp pm.portNum
  let maxHosts := ((v.dp.ports.lookup pm.portNum).getD { number := pm.portNum }).max_hosts
  if maxHosts == some oldEthSrcs.length then
    let dp' := v.dp.updPort pm.portNum
      (fun p => { p with learn_ban_count := p.learn_ban_count + 1 })
    ({ v with dp := dp' }, [tempBanOnPortMsg v.dp pm.portNum])
  else (v, [])

/-- Valve._vlan_learn_ban_rules: when the VLAN's host cache is at its
max_hosts and the source MAC is not already cached, emit the VLAN ban and
bump the VLAN's learn_ban_count. -/
def vlanLearnBanRules (v : Valve) (pm : PacketMeta) : Valve × List OFMsg :=
  let vl := v.dp.vlanD pm.vlanVid
  let hostsCount := vl.host_cache.length
  if vl.max_hosts.isSome && vl.max_hosts == some hostsCount
      && (vl.host_cache.lookup pm.eth_src).isNone then
    let dp' := v.dp.updVlan pm.vlanVid
      (fun w => { w with learn_ban_count := w.learn_ban_count + 1 })
    ({ v with dp := dp' }, [tempBanOnVlanMsg v.dp pm.vlanVid])
  else (v, [])

/-- Insert or replace a host-cache entry under a MAC key. -/
def cacheInsert (cache : List (Nat × HostCacheEntry)) (macAddr : Nat)
    (e : HostCacheEntry) : List (Nat × HostCacheEntry) :=
  if (cache.lookup macAddr).isSome then
    cache.map (fun kv => if kv.1 == macAddr then (kv.1, e) else kv)
  else (macAddr, e) :: cache

/-- Modelled from the spec: valve_host learn_host_on_vlan_port installs the
eth_src pin (vlan, mac, in_port) goto eth_dst and the eth_dst output flow,
both at high priority, and records the host in the VLAN's host cache (idle
timeouts and permanent-learn displacement are outside the claims and not
modelled). -/
def learnHostOnVlanPort (v : Valve) (portNum vid macAddr nowSec : Nat) :
    Valve × List OFMsg :=
  let dp := v.dp
  let msgs := [
    OFMsg.flowMod .eth_src
      { in_port := some portNum, vlan_vid := some (encodeVid vid), eth_src := some macAddr }
      dp.high_priority [Instr.gotoTable .eth_dst],
    OFMsg.flowMod .eth_dst
      { vlan_vid := some (encodeVid vid), eth_dst := some macAddr }
      dp.high_priority [Instr.applyActions [Action.output portNum]]]
  let entry : HostCacheEntry := { portNum := portNum, cacheTime := nowSec, edge := true }
  let dp' := dp.updVlan vid
    (fun w => { w with host_cache := cacheInsert w.host_cache macAddr entry })
  ({ v with dp := dp' }, msgs)

/-- Valve._edge_dp_for_host: scan the other valves for one whose same-vid
VLAN has already cached the source MAC at an edge port; raises KeyError
when a peer datapath does not configure the vid. -/
def edgeDpForHost (valves : List (Nat × Valve)) (dpId : Nat) (pm : PacketMeta) :
    Except ValveErr (Option DP) :=
  match valves with
  | [] => .ok none
  | (otherId, otherValve) :: rest =>
    if otherId == dpId then edgeDpForHost rest dpId pm
    else
      match otherValve.dp.vlans.lookup pm.vlanVid with
      | none => .error .keyError
      | some vl =>
        match vl.host_cache.lookup pm.eth_src with
        | some host => if host.edge then .ok (some otherValve.dp) else edgeDpForHost rest dpId pm
        | none => edgeDpForHost rest dpId pm

/-- Valve._learn_host: on a stack port, learn via the shortest-path stack
port towards the edge datapath that already knows the host (skip when none
does); otherwise learn directly on the ingress port. -/
def learnHost (v : Valve) (valves : List (Nat × Valve)) (dpId : Nat) (pm : PacketMeta)
    (nowSec : Nat) : Except ValveErr (Valve × List OFMsg) := do
  let port := (v.dp.ports.lookup pm.portNum).getD { number := pm.portNum }
  if port.stack.isSome then
    let edgeDp ← edgeDpForHost valves dpId pm
    match edgeDp with
    | none => return (v, [])
    | some edge =>
      let learnPort := v.dp.shortestPathPort edge.name
      return learnHostOnVlanPort v learnPort pm.vlanVid pm.eth_src nowSec
  else
    return learnHostOnVlanPort v pm.portNum pm.vlanVid pm.eth_src nowSec

/-- Valve.rcv_packet: guard on known running dp/port and known VLAN; for a
unicast source with L3 active try the control plane; rate-limit; port ban;
VLAN ban; learn the host; then host-FIB installs when L3 is active and the
control plane did not handle the frame. -/
def rcvPacket (v : Valve) (dpId : Nat) (valves : List (Nat × Valve)) (pm : PacketMeta)
    (nowSec : Nat) : Except ValveErr (Valve × List OFMsg) := do
  if !knownUpDpidAndPort v dpId pm.portNum then return (v, [])
  else
    match v.dp.vlans.lookup pm.vlanVid with
    | none => return (v, [])
    | some vl =>
      let cpMsgs := if macIsUnicast pm.eth_src && v.l3 then controlPlaneHandler vl pm else []
      let cpHandled := !cpMsgs.isEmpty
      let (v1, limited) := rateLimitPacketIns v nowSec
      if limited then return (v1, cpMsgs)
      else
        let (v2, banPort) := portLearnBanRules v1 pm
        if !banPort.isEmpty then return (v2, cpMsgs ++ banPort)
        else
          let (v3, banVlan) := vlanLearnBanRules v2 pm
          if !banVlan.isEmpty then return (v3, cpMsgs ++ banVlan)
          else
            let (v4, learnMsgs) ← learnHost v3 valves dpId pm nowSec
            let fibMsgs := if v4.l3 && !cpHandled then pm.fibResp else []
            return (v4, cpMsgs ++ learnMsgs ++ fibMsgs)

/-- Modelled from the spec: expire_hosts_from_vlan evicts host-cache
entries older than the DP timeout. -/
def expireHostsFromVlan (timeout nowSec : Nat) (vl : Vlan) : Vlan :=
  { vl with host_cache := vl.host_cache.filter (fun kv => nowSec - kv.2.cacheTime ≤ timeout) }

/-- Valve.host_expire: a no-op unless running; otherwise expire every
VLAN's stale cache entries (state only, no messages). -/
def hostExpire (v : Valve) (nowSec : Nat) : Valve :=
  if !v.dp.running then v
  else
    let vlans' := v.dp.vlans.map (fun kv => (kv.1, expireHostsFromVlan v.dp.timeout nowSec kv.2))
    { v with dp := { v.dp with vlans := vlans' } }

/-- Modelled from the spec: route_manager.resolve_gateways(vlan, now) emits
resolution probes for the VLAN's gateways; opaque to the Valve. -/
def resolveGatewaysVlanMsgs (vl : Vlan) : List OFMsg :=
  vl.ipvs.map (fun ipv => OFMsg.routeMgr (.resolveGw vl.vid ipv))

/-- Valve.resolve_gateways: empty unless running; otherwise delegate per
VLAN and per route manager. -/
def resolveGateways (v : Valve) (nowSec : Nat) : Valve × List OFMsg :=
  if !v.dp.running then (v, [])
  else (v, v.dp.vlans.flatMap (fun kv => resolveGatewaysVlanMsgs kv.2))

/-- Modelled from the spec: route_manager.advertise(vlan) emits router
advertisements (IPv6) for VLANs with v6 VIPs; opaque to the Valve. -/
def advertiseVlanMsgs (vl : Vlan) : List OFMsg :=
  if vl.faucet_vips6.isEmpty then [] else [OFMsg.routeMgr (.advertiseRA vl.vid)]

/-- Valve.advertise: when an advertise_interval is configured and has
elapsed since the last advertisement, delegate per VLAN and per route
manager and record the time.  Note: the source has no running guard
here. -/
def advertiseOp (v : Valve) (nowSec : Nat) : Valve × List OFMsg :=
  if v.dp.advertise_interval != 0 && nowSec - v.lastAdvertiseSec > v.dp.advertise_interval then
    ({ v with lastAdvertiseSec := nowSec },
     v.dp.vlans.flatMap (fun kv => advertiseVlanMsgs kv.2))
  else (v, [])

/-- Modelled from the spec: valve_host src_rule_expire reconciles the cache
on an eth_src flow removal: drop the cache entry when the host is still
recorded on that port. -/
def srcRuleExpire (v : Valve) (vl : Vlan) (inPort macAddr : Nat) : Valve × List OFMsg :=
  match vl.host_cache.lookup macAddr with
  | some e =>
    if e.portNum == inPort then
      let dp' := v.dp.updVlan vl.vid
        (fun w => { w with host_cache := w.host_cache.filter (fun kv => kv.1 != macAddr) })
      ({ v with dp := dp' }, [])
    else (v, [])
  | none => (v, [])

/-- Modelled from the spec: valve_host dst_rule_expire reconciles on an
eth_dst flow removal (no cache change needed for the claims; returns no
messages). -/
def dstRuleExpire (v : Valve) (vl : Vlan) (macAddr : Nat) : Valve × List OFMsg :=
  (v, [])

/-- The vid carried in an OXM vlan_vid value of a flow-removed match, with
the PRESENT bit stripped (vid & ~OFPVID_PRESENT); 0 encodes no/untagged
vid and is falsy in the source's field test. -/
def decodedVid (m : FlowMatch) : Nat := (m.vlan_vid.map (fun w => w % ofpvidPresent)).getD 0

/-- Valve.flow_timeout: for eth_src/eth_dst flow removals, pull eth_src,
eth_dst, vid (PRESENT bit stripped) and in_port out of the match and
reconcile the host cache; the dictionary access self.dp.vlans[vid] raises
KeyError when the vid is not configured.  Python truthiness: a missing
field, port 0 or vid 0 fail the field tests. -/
def flowTimeout (v : Valve) (t : TableId) (m : FlowMatch) :
    Except ValveErr (Valve × List OFMsg) :=
  if t == TableId.eth_src || t == TableId.eth_dst then
    if m.eth_src.isSome && decodedVid m != 0 && m.in_port.getD 0 != 0 then
      match v.dp.vlans.lookup (decodedVid m) with
      | none => .error .keyError
      | some vl => .ok (srcRuleExpire v vl (m.in_port.getD 0) (m.eth_src.getD 0))
    else if m.eth_dst.isSome && decodedVid m != 0 then
      match v.dp.vlans.lookup (decodedVid m) with
      | none => .error .keyError
      | some vl => .ok (dstRuleExpire v vl (m.eth_dst.getD 0))
    else .ok (v, [])
  else .ok (v, [])

/-- Valve._get_acl_config_changes: ACL ids that are new or whose rules
differ from the current configuration. -/
def getAclConfigChanges (old new : DP) : List Nat :=
  new.acls.filterMap (fun kv =>
    match old.acls.lookup kv.1 with
    | none => some kv.1
    | some oldAcl => if kv.2 != oldAcl then some kv.1 else none)

/-- Valve._get_vlan_config_changes: deleted vids (old-only), changed vids
(new-only, or structurally unequal even after adopting the new port
membership), and the new DP with dynamic VLAN state merged forward for
structurally unchanged VLANs. -/
def getVlanConfigChanges (old new : DP) : List Nat × List Nat × DP :=
  let deleted := (old.vlans.map Prod.fst).filter (fun vid => (new.vlans.lookup vid).isNone)
  let changed := new.vlans.filterMap (fun kv =>
    match old.vlans.lookup kv.1 with
    | none => some kv.1
    | some oldVlan =>
      if !vlanStructEq oldVlan kv.2 then
        if !vlanStructEq { oldVlan with tagged := kv.2.tagged, untagged := kv.2.untagged } kv.2
        then some kv.1 else none
      else none)
  let mergedVlans := new.vlans.map (fun kv =>
    match old.vlans.lookup kv.1 with
    | some oldVlan => if vlanStructEq oldVlan kv.2 then (kv.1, kv.2.mergeDyn oldVlan) else kv
    | none => kv)
  (deleted, changed, { new with vlans := mergedVlans })

/-- Valve._get_port_config_changes: changed ports (new, or reconfigured
beyond the ACL binding), ACL-only-changed ports, ports of changed VLANs
forced into changed, deleted ports, and the all-ports-changed flag. -/
def getPortConfigChanges (old new : DP) (changedVlans changedAcls : List Nat) :
    Bool × List Nat × List Nat × List Nat :=
  let base := new.ports.foldl
    (fun (acc : List Nat × List Nat) kv =>
      match old.ports.lookup kv.1 with
      | none => (acc.1 ++ [kv.1], acc.2)
      | some oldPort =>
        if !portStructEq kv.2 oldPort then
          if !portStructEq kv.2 { oldPort with acl_in := kv.2.acl_in } then
            (acc.1 ++ [kv.1], acc.2)
          else (acc.1, acc.2 ++ [kv.1])
        else
          match kv.2.acl_in with
          | some a => if changedAcls.contains a then (acc.1, acc.2 ++ [kv.1]) else acc
          | none => acc)
    ([], [])
  let changedPorts := changedVlans.foldl
    (fun acc vid =>
      match new.vlans.lookup vid with
      | some vl => vl.portNums.foldl (fun acc p => if acc.contains p then acc else acc ++ [p]) acc
      | none => acc)
    base.1
  let deletedPorts := (old.ports.map Prod.fst).filter (fun n => (new.ports.lookup n).isNone)
  let keys := new.ports.map Prod.fst
  let allChanged := keys.all changedPorts.contains && changedPorts.all keys.contains
  (allChanged, deletedPorts, changedPorts, base.2)

/-- The bundle of detected configuration changes
(Valve._get_config_changes). -/
structure Changes where
  deletedPorts : List Nat
  changedPorts : List Nat
  changedAclPorts : List Nat
  deletedVlans : List Nat
  changedVlans : List Nat
  allPortsChanged : Bool
deriving DecidableEq, Repr

/-- Valve._get_config_changes: ACL, VLAN then port diffs; also returns the
new DP with VLAN dynamic state merged forward. -/
def getConfigChanges (old new : DP) : Changes × DP :=
  let changedAcls := getAclConfigChanges old new
  let (deletedVlans, changedVlans, new') := getVlanConfigChanges old new
  let (allChanged, deletedPorts, changedPorts, changedAclPorts) :=
    getPortConfigChanges old new' changedVlans changedAcls
  ({ deletedPorts := deletedPorts, changedPorts := changedPorts,
     changedAclPorts := changedAclPorts, deletedVlans := deletedVlans,
     changedVlans := changedVlans, allPortsChanged := allChanged }, new')

/-- The changed-VLAN re-add loop of Valve._apply_config_changes: per vid,
delete-by-VLAN then _add_vlan on the (already swapped-in) new DP. -/
def readdVlansLoop (v : Valve) (vids : List Nat) : Except ValveErr (Valve × List OFMsg) := do
  match vids with
  | [] => return (v, [])
  | vid :: rest =>
    let vl := v.dp.vlanD vid
    let (v1, addMsgs, _) ← addVlanOp v vl
    let (v2, restMsgs) ← readdVlansLoop v1 rest
    return (v2, (delVlanMsgs vl ++ addMsgs) ++ restMsgs)

/-- Valve._apply_config_changes: all-ports-changed swaps the DP and cold
starts; the warm path deletes removed ports, removed VLANs and changed
ports against the old DP, swaps in the new DP, then re-adds changed VLANs
(delete then add), re-adds changed ports and reprograms ACL-only ports. -/
def applyConfigChanges (v : Valve) (newDp : DP) (ch : Changes) :
    Except ValveErr (Bool × Valve × List OFMsg) := do
  let newDp := { newDp with running := true }
  if ch.allPortsChanged then
    let v1 := { v with dp := newDp }
    let (v2, msgs) ← datapathConnect v1 v1.dp.dp_id ch.changedPorts
    return (true, v2, msgs)
  else
    let (dp1, m1) := portsDelete v.dp v.dp.dp_id ch.deletedPorts
    let m2 := ch.deletedVlans.flatMap (fun vid => delVlanMsgs (dp1.vlanD vid))
    let (dp2, m3) := portsDelete dp1 dp1.dp_id ch.changedPorts
    let v1 := { v with dp := newDp }
    let (v2, m4) ← readdVlansLoop v1 ch.changedVlans
    let (dp3, m5) := portsAdd v2.dp v2.dp.dp_id ch.changedPorts false
    let m6 := ch.changedAclPorts.flatMap (fun p => portAddAclMsgs dp3 p true)
    return (false, { v2 with dp := dp3 }, m1 ++ m2 ++ m3 ++ m4 ++ m5 ++ m6)

/-- Valve.reload_config: skip with (false, []) when not running, else diff
and apply. -/
def reloadConfig (v : Valve) (newDp : DP) :
    Except ValveErr (Bool × Valve × List OFMsg) :=
  if v.dp.running then
    let (ch, newDp') := getConfigChanges v.dp newDp
    applyConfigChanges v newDp' ch
  else .ok (false, v, [])

/-- Modelled from the spec: the OpenFlow port-status reasons of
port_status_handler. -/
inductive PortReason
  | add
  | delete
  | modify
  | unknown (code : Nat)
deriving DecidableEq, Repr

/-- Valve.port_status_handler: ADD adds, DELETE deletes, MODIFY deletes
then conditionally adds; unknown reasons log and return nothing. -/
def portStatusHandler (dp : DP) (dpId portNo : Nat) (reason : PortReason)
    (portStatus : Bool) : DP × List OFMsg :=
  match reason with
  | .add => portsAdd dp dpId [portNo] false
  | .delete => portsDelete dp dpId [portNo]
  | .modify =>
    let (dp1, m1) := portsDelete dp dpId [portNo]
    if portStatus then
      let (dp2, m2) := portsAdd dp1 dpId [portNo] false
      (dp2, m1 ++ m2)
    else (dp1, m1)
  | .unknown _ => (dp, [])

/-- Splitting a flatMap at a member of the index list. -/
theorem flatMap_split {α β : Type} (f : α → List β) {a : α} {l : List α} (h : a ∈ l) :
    ∃ l1 l2, l.flatMap f = l1 ++ f a ++ l2 := by
  induction l with
  | nil => cases h
  | cons b t ih =>
    rcases List.mem_cons.mp h with hb | ht
    · exact ⟨[], t.flatMap f, by simp [hb]⟩
    · rcases ih ht with ⟨l1, l2, heq⟩
      exact ⟨f b ++ l1, l2, by simp [heq]⟩

/-- Lookup of a present key in an association list with distinct keys. -/
theorem lookup_self {β : Type} {l : List (Nat × β)} (hnd : (l.map Prod.fst).Nodup)
    {k : Nat} {b : β} (h : (k, b) ∈ l) : l.lookup k = some b := by
  induction l with
  | nil => cases h
  | cons kv t ih =>
    simp only [List.map_cons, List.nodup_cons] at hnd
    rcases List.mem_cons.mp h with hb | ht
    · simp [List.lookup, ← hb]
    · have hk : ¬ k = kv.1 := by
        intro hkk
        exact hnd.1 (hkk ▸ (List.mem_map.mpr ⟨(k, b), ht, rfl⟩))
      simp only [List.lookup]
      rw [show (k == kv.1) = false from beq_eq_false_iff_ne.mpr hk]
      exact ih hnd.2 ht

/-- Symmetry of Nat boolean equality. -/
theorem natBeqComm (a b : Nat) : (a == b) = (b == a) := by
  cases h : a == b with
  | true =>
    have : a = b := by simpa using h
    subst this
    simp
  | false =>
    cases h' : b == a with
    | true =>
      have : b = a := by simpa using h'
      subst this
      simp at h
    | false => rfl

/-- Lookup after a keyed conditional map: the stored value is transformed. -/
theorem lookup_condMap {β : Type} (l : List (Nat × β)) (n : Nat) (f : β → β) :
    (l.map (fun kv => if kv.1 == n then (kv.1, f kv.2) else kv)).lookup n
      = (l.lookup n).map f := by
  induction l with
  | nil => simp [List.lookup]
  | cons kv t ih =>
    obtain ⟨k, b⟩ := kv
    simp only [List.map_cons]
    cases hc : k == n with
    | true =>
      have hk : k = n := by simpa using hc
      subst hk
      simp [List.lookup, ih]
    | false =>
      have hcn : (n == k) = false := by rw [natBeqComm]; exact hc
      simp only [List.lookup, hcn, show (if (false = true) then (k, f b) else (k, b)) = (k, b)
        by simp]
      exact ih

/-- Lookup of a different key after a keyed conditional map: unchanged. -/
theorem lookup_condMap_ne {β : Type} (l : List (Nat × β)) {n m : Nat} (f : β → β)
    (h : ¬ m = n) :
    (l.map (fun kv => if kv.1 == n then (kv.1, f kv.2) else kv)).lookup m
      = l.lookup m := by
  induction l with
  | nil => simp
  | cons kv t ih =>
    obtain ⟨k, b⟩ := kv
    simp only [List.map_cons]
    cases hc : k == n with
    | true =>
      have hk : k = n := by simpa using hc
      subst hk
      have h2 : (m == k) = false := by
        cases hmn : m == k with
        | true =>
          exact absurd (by simpa using hmn) h
        | false => rfl
      simp only [List.lookup, h2, show (if (true = true) then (k, f b) else (k, b)) = (k, f b)
        by simp]
      exact ih
    | false =>
      simp only [show (if (false = true) then (k, f b) else (k, b)) = (k, b) by simp,
        List.lookup]
      cases hmk : m == k with
      | true => rfl
      | false => exact ih

/-- Unfolding the vid union one step. -/
theorem vidUnion_cons (b : Nat) (t r : List Nat) :
    vidUnion (b :: t) r
      = if (vidUnion t r).contains b then vidUnion t r else b :: vidUnion t r := rfl

/-- Membership in the order-preserving vid union. -/
theorem mem_vidUnion {x : Nat} {l r : List Nat} (h : x ∈ l ∨ x ∈ r) :
    x ∈ vidUnion l r := by
  induction l with
  | nil =>
    rcases h with h | h
    · cases h
    · exact h
  | cons b t ih =>
    rw [vidUnion_cons]
    rcases h with h | h
    · rcases List.mem_cons.mp h with hb | ht
      · subst hb
        cases hc : (vidUnion t r).contains x with
        | true =>
          simp only [if_pos rfl]
          simpa using hc
        | false =>
          simp only [show (false = true) = False by simp, if_false]
          exact List.mem_cons_self x _
      · have hm := ih (Or.inl ht)
        split
        · exact hm
        · exact List.mem_cons_of_mem _ hm
    · have hm := ih (Or.inr h)
      split
      · exact hm
      · exact List.mem_cons_of_mem _ hm

/-- C8: for a configured, non-ignored port p, ports_delete([p]) emits a
flow-delete matching in_port=p for every table in in_port_tables(), a
flow-delete in eth_dst with out_port=p, and, when p has permanent_learn
set, a flow-delete in eth_src for every MAC learned on p; afterwards flood
rules are rebuilt with modify=true for every VLAN p belonged to. -/
theorem ports_delete_wipes_port
    (dp dp' : DP) (p : Nat) (port : Port) (msgs : List OFMsg)
    (hig : ignorePort p = false)
    (hlk : dp.ports.lookup p = some port)
    (hnum : port.number = p)
    (hr : portsDelete dp dp.dp_id [p] = (dp', msgs)) :
    (∀ t ∈ inPortTables, OFMsg.flowDel t { in_port := some p } none ∈ msgs) ∧
    OFMsg.flowDel .eth_dst {} (some p) ∈ msgs ∧
    (port.permanent_learn = true →
      ∀ macAddr ∈ getEthSrcsLearnedOnPort dp p,
        OFMsg.flowDel .eth_src { eth_src := some macAddr } none ∈ msgs) ∧
    (∀ vid ∈ port.tagged_vlans ++ port.native_vlan.toList, ∀ vl,
      dp.vlans.lookup vid = some vl →
        ∃ l1 l2, msgs = l1 ++ buildFloodRules dp' vl true ++ l2) := by
  set dp1 := dp.updPort p (fun q => { q with phys_up := false }) with hdp1
  have hlk1 : dp1.ports.lookup p = some { port with phys_up := false } := by
    have h := lookup_condMap dp.ports p (fun q => ({ q with phys_up := false } : Port))
    rw [hlk] at h
    exact h
  have hvls : dp1.vlans = dp.vlans := rfl
  have hsrcs : getEthSrcsLearnedOnPort dp1 p = getEthSrcsLearnedOnPort dp p := by
    simp [getEthSrcsLearnedOnPort, hlk1, hlk, hvls]
  have hloop : portsDeleteLoop dp [p]
      = (dp1, portDeleteFlowsMsgs dp1 port (getEthSrcsLearnedOnPort dp1 p) ++ [],
         vidUnion (port.tagged_vlans ++ port.native_vlan.toList) []) := by
    simp [portsDeleteLoop, hig, hlk, hdp1]
  have hcall : portsDelete dp dp.dp_id [p]
      = (dp1, (portDeleteFlowsMsgs dp1 port (getEthSrcsLearnedOnPort dp1 p) ++ [])
          ++ (vidUnion (port.tagged_vlans ++ port.native_vlan.toList) []).flatMap
            (fun vid =>
              match dp1.vlans.lookup vid with
              | some vl => buildFloodRules dp1 vl true
              | none => [])) := by
    simp only [portsDelete, bne_self_eq_false, Bool.false_eq_true, if_false, hloop]
  rw [hcall] at hr
  injection hr with hdp'eq hmsgseq
  have hdp' : dp' = dp1 := hdp'eq.symm
  have hmsgs : msgs
      = (portDeleteFlowsMsgs dp1 port (getEthSrcsLearnedOnPort dp1 p) ++ [])
        ++ (vidUnion (port.tagged_vlans ++ port.native_vlan.toList) []).flatMap
          (fun vid =>
            match dp1.vlans.lookup vid with
            | some vl => buildFloodRules dp1 vl true
            | none => []) := hmsgseq.symm
  have hdel : portDeleteFlowsMsgs dp1 port (getEthSrcsLearnedOnPort dp1 p)
      = deleteAllPortMatchFlows dp1 p ++ [OFMsg.flowDel .eth_dst {} (some p)]
        ++ (if port.permanent_learn then
              (getEthSrcsLearnedOnPort dp1 p).flatMap (fun macAddr =>
                [OFMsg.flowDel .eth_src { eth_src := some macAddr } none])
            else []) := by
    simp [portDeleteFlowsMsgs, hnum]
  refine ⟨?_, ?_, ?_, ?_⟩
  · intro t ht
    rw [hmsgs, hdel]
    apply List.mem_append_left
    apply List.mem_append_left
    apply List.mem_append_left
    apply List.mem_append_left
    exact List.mem_map.mpr ⟨t, ht, rfl⟩
  · rw [hmsgs, hdel]
    apply List.mem_append_left
    apply List.mem_append_left
    apply List.mem_append_left
    apply List.mem_append_right
    simp
  · intro hperm macAddr hmac
    rw [hmsgs, hdel, hperm]
    apply List.mem_append_left
    apply List.mem_append_left
    apply List.mem_append_right
    simp only [if_true]
    rw [hsrcs]
    rcases flatMap_split (fun macAddr =>
      [OFMsg.flowDel .eth_src { eth_src := some macAddr } none]) hmac with ⟨l1, l2, heq⟩
    rw [heq]
    simp
  · intro vid hvid vl hvl
    have hmem : vid ∈ vidUnion (port.tagged_vlans ++ port.native_vlan.toList) [] :=
      mem_vidUnion (Or.inl hvid)
    rcases flatMap_split (fun vid =>
        match dp1.vlans.lookup vid with
        | some vl => buildFloodRules dp1 vl true
        | none => []) hmem with ⟨l1, l2, heq⟩
    have hvl1 : dp1.vlans.lookup vid = some vl := hvl
    refine ⟨(portDeleteFlowsMsgs dp1 port (getEthSrcsLearnedOnPort dp1 p) ++ []) ++ l1, l2, ?_⟩
    rw [hmsgs, heq, hvl1, hdp']
    simp

/-- Concrete port for the ports_delete witness: permanent-learn port 1 on
VLAN 10. -/
def portW8 : Port := { number := 1, native_vlan := some 10, permanent_learn := true, phys_up := true }

/-- Concrete DP for the ports_delete witness: VLAN 10 with ports 1 and 2,
one MAC learned on port 1. -/
def dpW8 : DP := { dp_id := 5, vlans := [(10, { vid := 10, untagged := [1, 2], host_cache := [(7, { portNum := 1, cacheTime := 0, edge := true })] })], ports := [(1, portW8), (2, { number := 2, native_vlan := some 10 })], running := true }

/-- Witness for C8 at the concrete datapath dpW8, port 1. -/
theorem ports_delete_wipes_port_witness :
    ignorePort 1 = false ∧ dpW8.ports.lookup 1 = some portW8 ∧ portW8.number = 1 ∧
    ((∀ t ∈ inPortTables,
        OFMsg.flowDel t { in_port := some 1 } none ∈ (portsDelete dpW8 dpW8.dp_id [1]).2) ∧
      OFMsg.flowDel .eth_dst {} (some 1) ∈ (portsDelete dpW8 dpW8.dp_id [1]).2 ∧
      (portW8.permanent_learn = true →
        ∀ macAddr ∈ getEthSrcsLearnedOnPort dpW8 1,
          OFMsg.flowDel .eth_src { eth_src := some macAddr } none
            ∈ (portsDelete dpW8 dpW8.dp_id [1]).2) ∧
      (∀ vid ∈ portW8.tagged_vlans ++ portW8.native_vlan.toList, ∀ vl,
        dpW8.vlans.lookup vid = some vl →
          ∃ l1 l2, (portsDelete dpW8 dpW8.dp_id [1]).2
            = l1 ++ buildFloodRules (portsDelete dpW8 dpW8.dp_id [1]).1 vl true ++ l2)) :=
  ⟨by decide, by decide, by decide,
   ports_delete_wipes_port dpW8 (portsDelete dpW8 dpW8.dp_id [1]).1 1 portW8
     (portsDelete dpW8 dpW8.dp_id [1]).2 (by decide) (by decide) (by decide) rfl⟩

/-- Recognizer for flow-drop messages. -/
def isDrop : OFMsg → Bool
  | .flowDrop _ _ _ _ => true
  | _ => false

/-- Recognizer for a default drop at the given (lowest) priority in the
given table. -/
def isLowestDrop (lp : Nat) (t : TableId) : OFMsg → Bool
  | .flowDrop t' _ pr _ => t' == t && pr == lp
  | _ => false

/-- A non-drop message is never a lowest-priority drop. -/
theorem isLowestDrop_of_not_drop {m : OFMsg} (h : isDrop m = false) (lp : Nat) (t : TableId) :
    isLowestDrop lp t m = false := by
  cases m <;> simp_all [isDrop, isLowestDrop]

/-- ACL rule installation messages contain no drops (flowmods and opaque
ACL-config messages only). -/
theorem aclRulesMsgs_no_drop (rules : List AclRule) (prio : Nat) (inst : Instr) (t : TableId) :
    ∀ m ∈ aclRulesMsgs rules prio inst t, isDrop m = false := by
  induction rules generalizing prio with
  | nil => intro m hm; simp [aclRulesMsgs] at hm
  | cons r rest ih =>
    intro m hm
    simp only [aclRulesMsgs, buildAclEntry, List.mem_append, List.mem_singleton] at hm
    rcases hm with (hm | hm) | hm
    · rcases List.mem_map.mp hm with ⟨tok, _, rfl⟩
      rfl
    · rw [hm]; rfl
    · exact ih (prio - 1) m hm

/-- Port-ACL installation messages contain no drops. -/
theorem portAddAclMsgs_no_drop (dp : DP) (n : Nat) (cs : Bool) :
    ∀ m ∈ portAddAclMsgs dp n cs, isDrop m = false := by
  intro m hm
  simp only [portAddAclMsgs, List.mem_append] at hm
  rcases hm with hm | hm
  · cases cs <;> simp_all [isDrop]
  · cases hpa : dp.port_acl_in.lookup n with
    | some aclNum =>
      rw [hpa] at hm
      exact aclRulesMsgs_no_drop _ _ _ _ m hm
    | none =>
      rw [hpa] at hm
      simp at hm
      rw [hm]; rfl

/-- Per-port VLAN ingress rules contain no drops. -/
theorem portAddVlansMsgs_no_drop (dp : DP) (n : Nat) (acts : List Action)
    (tv uv : List Nat) :
    ∀ m ∈ portAddVlansMsgs dp n acts tv uv, isDrop m = false := by
  intro m hm
  simp only [portAddVlansMsgs, List.mem_append, List.mem_flatMap] at hm
  rcases hm with ⟨vid, _, hm⟩ | ⟨vid, _, hm⟩ <;>
    [cases hv : dp.vlans.lookup vid; cases hv : dp.vlans.lookup vid] <;>
    rw [hv] at hm <;> simp_all [portAddVlanTaggedMsgs, portAddVlanUntaggedMsgs] <;>
    subst hm <;> rfl

/-- Reduction of an Except bind on a success value. -/
theorem exceptBindOk {A B : Type} (a : A) (f : A → Except ValveErr B) :
    (Except.ok a >>= f) = f a := rfl

/-- Reduction of an Except bind on an error value. -/
theorem exceptBindErr {A B : Type} (e : ValveErr) (f : A → Except ValveErr B) :
    ((Except.error e : Except ValveErr A) >>= f) = Except.error e := rfl

/-- Reduction of pure into Except.ok. -/
theorem exceptPure {A : Type} (a : A) : (pure a : Except ValveErr A) = Except.ok a := rfl

/-- The messages of a successful _add_faucet_vips call are exactly the
route-manager VIP adds. -/
theorem addFaucetVips_ok (v v' : Valve) (ipv vid : Nat) (vips : List Nat) (m : List OFMsg)
    (h : addFaucetVips v ipv vid vips = .ok (v', m)) :
    m = vips.flatMap (addFaucetVipMsgs ipv vid) ∧ v'.dp = v.dp
      ∧ (v.l3 = true → v'.l3 = true) ∧ (vips ≠ [] → v'.l3 = true) := by
  induction vips generalizing v m with
  | nil =>
    simp only [addFaucetVips] at h
    injection h with h
    injection h with h1 h2
    subst h1
    simp [h2.symm]
  | cons vipAddr rest ih =>
    simp only [addFaucetVips] at h
    by_cases hs : v.dp.stack.isSome
    · simp [hs] at h
    · rw [if_neg (by simp [hs])] at h
      cases hrec : addFaucetVips { v with l3 := true } ipv vid rest with
      | error e => rw [hrec] at h; cases h
      | ok pr =>
        obtain ⟨v2, m2⟩ := pr
        rw [hrec] at h
        injection h with h
        injection h with h1 h2
        subst h1
        rcases ih { v with l3 := true } m2 hrec with ⟨hm2, hdp, hl3, _⟩
        refine ⟨by rw [← h2, hm2]; simp, by rw [hdp], fun _ => hl3 rfl, fun _ => hl3 rfl⟩

/-- The messages of the per-IP-version VIP loop of _add_vlan. -/
theorem addVlanIpvsLoop_ok (v v' : Valve) (vl : Vlan) (ipvList : List Nat) (m : List OFMsg)
    (h : addVlanIpvsLoop v vl ipvList = .ok (v', m)) :
    m = ipvList.flatMap (fun ipv => (vl.vipsByIpv ipv).flatMap (addFaucetVipMsgs ipv vl.vid))
      ∧ v'.dp = v.dp ∧ (v.l3 = true → v'.l3 = true) := by
  induction ipvList generalizing v m with
  | nil =>
    simp only [addVlanIpvsLoop] at h
    injection h with h
    injection h with h1 h2
    subst h1
    simp [h2.symm]
  | cons ipv rest ih =>
    simp only [addVlanIpvsLoop] at h
    cases h1 : addFaucetVips v ipv vl.vid (vl.vipsByIpv ipv) with
    | error e => simp only [h1, exceptBindErr] at h; cases h
    | ok pr1 =>
      obtain ⟨v1, m1⟩ := pr1
      simp only [h1, exceptBindOk] at h
      cases h2 : addVlanIpvsLoop v1 vl rest with
      | error e =>
        simp only [h2, exceptBindErr] at h
        cases h
      | ok pr2 =>
        obtain ⟨v2, m2⟩ := pr2
        simp only [h2, exceptBindOk, exceptPure] at h
        injection h with h
        injection h with ha hb
        subst ha
        rcases addFaucetVips_ok v v1 ipv vl.vid _ m1 h1 with ⟨hm1, hdp1, hl31, _⟩
        rcases ih v1 m2 h2 with ⟨hm2, hdp2, hl32⟩
        refine ⟨by rw [← hb, hm1, hm2]; simp, by rw [hdp2, hdp1],
          fun hv => hl32 (hl31 hv)⟩

/-- A successful _add_vlan call emits exactly addVlanMsgs, preserves the
DP, and only ever raises the L3 flag. -/
theorem addVlanOp_ok (v v' : Valve) (vl : Vlan) (m : List OFMsg) (ns : List Nat)
    (h : addVlanOp v vl = .ok (v', m, ns)) :
    m = addVlanMsgs v.dp vl ∧ v'.dp = v.dp ∧ (v.l3 = true → v'.l3 = true) := by
  simp only [addVlanOp] at h
  cases h1 : addVlanIpvsLoop v vl vl.ipvs with
  | error e => simp only [h1, exceptBindErr] at h; cases h
  | ok pr =>
    obtain ⟨v1, m1⟩ := pr
    simp only [h1, exceptBindOk, exceptPure] at h
    injection h with h
    injection h with ha hb
    injection hb with hb hc
    subst ha
    rcases addVlanIpvsLoop_ok v v1 vl _ m1 h1 with ⟨hm1, hdp, hl3⟩
    exact ⟨by rw [← hb, hm1]; rfl, hdp, hl3⟩

/-- The messages of _add_vlan contain no drop flows. -/
theorem addVlanMsgs_no_drop (dp : DP) (vl : Vlan) :
    ∀ m ∈ addVlanMsgs dp vl, isDrop m = false := by
  intro m hm
  simp only [addVlanMsgs, List.mem_append] at hm
  rcases hm with (hm | hm) | hm
  · rcases List.mem_map.mp hm with ⟨p, _, rfl⟩
    rfl
  · simp only [addVlanAclMsgs] at hm
    cases hva : dp.vlan_acl_in.lookup vl.vid with
    | none => rw [hva] at hm; cases hm
    | some aclNum =>
      rw [hva] at hm
      exact aclRulesMsgs_no_drop _ _ _ _ m hm
  · rcases List.mem_flatMap.mp hm with ⟨ipv, _, hm⟩
    rcases List.mem_flatMap.mp hm with ⟨vipAddr, _, hm⟩
    simp only [addFaucetVipMsgs, List.mem_singleton] at hm
    rw [hm]; rfl

/-- A successful VLAN-configuration loop emits no drop flows, preserves the
DP and only ever raises the L3 flag. -/
theorem addVlansLoop_ok (vls : List (Nat × Vlan)) :
    ∀ (v v' : Valve) (m : List OFMsg) (ns : List Nat),
      addVlansLoop v vls = .ok (v', m, ns) →
      (∀ x ∈ m, isDrop x = false) ∧ v'.dp = v.dp ∧ (v.l3 = true → v'.l3 = true) := by
  induction vls with
  | nil =>
    intro v v' m ns h
    simp only [addVlansLoop] at h
    injection h with h
    injection h with ha hb
    injection hb with hb hc
    subst ha
    constructor
    · intro x hx; rw [← hb] at hx; cases hx
    · exact ⟨rfl, fun hv => hv⟩
  | cons kv rest ih =>
    intro v v' m ns h
    simp only [addVlansLoop] at h
    cases h1 : addVlanOp v kv.2 with
    | error e => simp only [h1, exceptBindErr] at h; cases h
    | ok pr1 =>
      obtain ⟨v1, m1, ns1⟩ := pr1
      simp only [h1, exceptBindOk] at h
      cases h2 : addVlansLoop v1 rest with
      | error e => simp only [h2, exceptBindErr] at h; cases h
      | ok pr2 =>
        obtain ⟨v2, m2, ns2⟩ := pr2
        simp only [h2, exceptBindOk, exceptPure] at h
        injection h with h
        injection h with ha hb
        injection hb with hb hc
        subst ha
        rcases addVlanOp_ok v v1 kv.2 m1 ns1 h1 with ⟨hm1, hdp1, hl31⟩
        rcases ih v1 v2 m2 ns2 h2 with ⟨hm2, hdp2, hl32⟩
        refine ⟨?_, by rw [hdp2, hdp1], fun hv => hl32 (hl31 hv)⟩
        intro x hx
        rw [← hb] at hx
        rcases List.mem_append.mp hx with hx | hx
        · rw [hm1] at hx
          exact addVlanMsgs_no_drop v.dp kv.2 x hx
        · exact hm2 x hx

/-- Shape and drop content of the ports_add loop: the DP changes only in
its ports (phys_up marking), and every drop emitted (mirror-destination
ingress drops) is at highest priority. -/
theorem portsAddLoop_props (nums : List Nat) :
    ∀ dp : DP,
      (∃ ps, (portsAddLoop dp nums).1 = { dp with ports := ps }) ∧
      (∀ lp t, lp ≠ dp.highest_priority →
        ∀ m ∈ (portsAddLoop dp nums).2.1, isLowestDrop lp t m = false) := by
  induction nums with
  | nil =>
    intro dp
    refine ⟨⟨dp.ports, rfl⟩, ?_⟩
    intro lp t hlp m hm
    simp [portsAddLoop] at hm
  | cons n rest ih =>
    intro dp
    by_cases hig : ignorePort n
    · rcases ih dp with ⟨⟨ps, hps⟩, hdrop⟩
      constructor
      · exact ⟨ps, by simp only [portsAddLoop, hig, if_pos rfl]; exact hps⟩
      · intro lp t hlp m hm
        simp only [portsAddLoop, hig, if_pos rfl] at hm
        exact hdrop lp t hlp m hm
    · cases hlk : dp.ports.lookup n with
      | none =>
        rcases ih dp with ⟨⟨ps, hps⟩, hdrop⟩
        constructor
        · refine ⟨ps, ?_⟩
          simp only [portsAddLoop, hig, Bool.false_eq_true, if_false, hlk]
          exact hps
        · intro lp t hlp m hm
          simp only [portsAddLoop, hig, Bool.false_eq_true, if_false, hlk] at hm
          exact hdrop lp t hlp m hm
      | some port =>
        set dp1 := dp.updPort n (fun p => { p with phys_up := true }) with hdp1
        rcases ih dp1 with ⟨⟨ps, hps⟩, hdrop⟩
        rcases hrec : portsAddLoop dp1 rest with ⟨dp2, m2, vs2⟩
        rw [hrec] at hps
        have hshape : ∃ ps, (portsAddLoop dp (n :: rest)).1 = { dp with ports := ps } := by
          refine ⟨ps, ?_⟩
          by_cases hmd : port.mirror_destination <;>
            by_cases hst : port.stack.isSome <;>
              simp only [portsAddLoop, hig, Bool.false_eq_true, if_false, hlk,
                Port.isRunning, Bool.not_true, hmd, hst, ← hdp1, hrec, if_true, if_pos rfl] <;>
              exact hps
        refine ⟨hshape, ?_⟩
        intro lp t hlp m hm
        have hlp1 : lp ≠ dp1.highest_priority := hlp
        have hdropm : ∀ x ∈ m2, isLowestDrop lp t x = false := by
          intro x hx
          have := hdrop lp t hlp1 x (by rw [hrec]; exact hx)
          exact this
        have hhib : (dp1.highest_priority == lp) = false :=
          beq_eq_false_iff_ne.mpr (Ne.symm hlp)
        by_cases hmd : port.mirror_destination
        · simp only [portsAddLoop, hig, Bool.false_eq_true, if_false, hlk, Port.isRunning,
            Bool.not_true, hmd, if_true, if_pos rfl, ← hdp1, hrec, List.mem_cons] at hm
          rcases hm with hm | hm
          · rw [hm]
            simp [isLowestDrop, hhib]
          · exact hdropm m hm
        · by_cases hst : port.stack.isSome <;>
            simp only [portsAddLoop, hig, Bool.false_eq_true, if_false, hlk, Port.isRunning,
              Bool.not_true, hmd, hst, if_true, if_pos rfl, ← hdp1, hrec,
              List.mem_append, List.mem_cons, List.not_mem_nil, or_false] at hm
          · rcases hm with (hm | hm) | hm
            · exact isLowestDrop_of_not_drop (portAddAclMsgs_no_drop dp1 n false m hm) lp t
            · rw [hm]; rfl
            · exact hdropm m hm
          · rcases hm with (hm | hm) | hm
            · exact isLowestDrop_of_not_drop (portAddAclMsgs_no_drop dp1 n false m hm) lp t
            · exact isLowestDrop_of_not_drop (portAddVlansMsgs_no_drop dp1 n _ _ _ m hm) lp t
            · exact hdropm m hm

/-- A successful _add_ports_and_vlans call: no lowest-priority drops among
its messages, the DP is changed only in its ports, and the L3 flag is only
ever raised. -/
theorem addPortsAndVlans_ok (v v1 : Valve) (disc : List Nat) (m : List OFMsg)
    (h : addPortsAndVlans v disc = .ok (v1, m)) :
    (∀ lp t, lp ≠ v.dp.highest_priority → ∀ x ∈ m, isLowestDrop lp t x = false) ∧
    (∃ ps, v1.dp = { v.dp with ports := ps }) ∧
    (v.l3 = true → v1.l3 = true) := by
  simp only [addPortsAndVlans] at h
  cases h1 : addVlansLoop v v.dp.vlans with
  | error e => simp only [h1, exceptBindErr] at h; cases h
  | ok pr =>
    obtain ⟨va, vm, ns⟩ := pr
    simp only [h1, exceptBindOk, exceptPure] at h
    rcases addVlansLoop_ok v.dp.vlans v va vm ns h1 with ⟨hvm, hdpa, hl3a⟩
    injection h with h
    injection h with ha hb
    rcases portsAddLoop_props
      (vidUnion v.dp.stackPortNums ns
        ++ (disc.filter (fun n => !ignorePort n && !(vidUnion v.dp.stackPortNums ns).contains n)))
      va.dp with ⟨⟨ps, hps⟩, hdrops⟩
    have hport : portsAdd va.dp va.dp.dp_id
        (vidUnion v.dp.stackPortNums ns
          ++ (disc.filter (fun n => !ignorePort n && !(vidUnion v.dp.stackPortNums ns).contains n)))
        true
        = ((portsAddLoop va.dp
            (vidUnion v.dp.stackPortNums ns
              ++ (disc.filter (fun n => !ignorePort n
                && !(vidUnion v.dp.stackPortNums ns).contains n)))).1,
           (portsAddLoop va.dp
            (vidUnion v.dp.stackPortNums ns
              ++ (disc.filter (fun n => !ignorePort n
                && !(vidUnion v.dp.stackPortNums ns).contains n)))).2.1) := by
      simp [portsAdd]
    rw [hport] at ha hb
    refine ⟨?_, ?_, ?_⟩
    · intro lp t hlp x hx
      rw [← hb] at hx
      rcases List.mem_append.mp hx with hx | hx
      · exact isLowestDrop_of_not_drop (hvm x hx) lp t
      · exact hdrops lp t (by rw [hdpa]; exact hlp) x hx
    · refine ⟨ps, ?_⟩
      rw [← ha]
      show (portsAddLoop va.dp _).1 = _
      rw [hps, hdpa]
    · intro hv
      have : v1.l3 = va.l3 := by rw [← ha]
      rw [this]
      exact hl3a hv

/-- The whole-pipeline delete block contains no drop flows. -/
theorem deleteAllValveFlows_no_drop (dp : DP) :
    ∀ x ∈ deleteAllValveFlows dp, isDrop x = false := by
  intro x hx
  simp only [deleteAllValveFlows] at hx
  rcases List.mem_append.mp hx with hx | hx
  · rcases List.mem_append.mp hx with hx | hx
    · rcases List.mem_singleton.mp hx with rfl
      rfl
    · split_ifs at hx
      · cases hx
      · rcases List.mem_singleton.mp hx with rfl
        rfl
  · split_ifs at hx
    · rcases List.mem_singleton.mp hx with rfl
      rfl
    · cases hx

/-- The packet-in meter block contains no drop flows. -/
theorem addPacketinMeter_no_drop (dp : DP) :
    ∀ x ∈ addPacketinMeter dp, isDrop x = false := by
  intro x hx
  simp only [addPacketinMeter] at hx
  cases hp : dp.packetin_pps with
  | none => rw [hp] at hx; cases hx
  | some pps =>
    rw [hp] at hx
    rcases List.mem_cons.mp hx with rfl | hx
    · rfl
    · rcases List.mem_singleton.mp hx with rfl
      rfl

/-- Exactly one lowest-priority drop per configured table in the default
drop block, provided high and highest priorities differ from lowest. -/
theorem addDefaultDropFlows_count (dp : DP) (t : TableId) (ht : t ∈ allValveTables)
    (hph : dp.high_priority ≠ dp.lowest_priority)
    (hpt : dp.highest_priority ≠ dp.lowest_priority) :
    (addDefaultDropFlows dp).countP (isLowestDrop dp.lowest_priority t) = 1 := by
  have hhigh : (dp.high_priority == dp.lowest_priority) = false := beq_eq_false_iff_ne.mpr hph
  have hhighest : (dp.highest_priority == dp.lowest_priority) = false :=
    beq_eq_false_iff_ne.mpr hpt
  have hseg1 : (allValveTables.map
      (fun t' => OFMsg.flowDrop t' {} dp.lowest_priority none)).countP
        (isLowestDrop dp.lowest_priority t) = 1 := by
    rw [List.countP_map]
    have : ((isLowestDrop dp.lowest_priority t)
        ∘ (fun t' => OFMsg.flowDrop t' {} dp.lowest_priority none))
        = fun t' => t' == t := by
      funext t'
      simp [isLowestDrop, Function.comp]
    rw [this]
    fin_cases ht <;> decide
  have hseg2 : ((if dp.drop_broadcast_source_address then
      [OFMsg.flowDrop .vlan { eth_src := some broadcastMac } dp.highest_priority none]
      else []).countP (isLowestDrop dp.lowest_priority t)) = 0 := by
    cases hb : dp.drop_broadcast_source_address <;>
      simp [isLowestDrop, hhighest]
  have hseg3 : ((if dp.drop_spoofed_faucet_mac then
      dp.vlans.map (fun kv =>
        OFMsg.flowDrop .vlan { eth_src := some kv.2.faucet_mac } dp.high_priority none)
      else []).countP (isLowestDrop dp.lowest_priority t)) = 0 := by
    cases hb : dp.drop_spoofed_faucet_mac
    · simp
    · simp only [if_pos rfl]
      rw [List.countP_eq_zero]
      intro a ha
      rcases List.mem_map.mp ha with ⟨kv, _, rfl⟩
      simp [isLowestDrop, hhigh]
  have hseg4 : ((if dp.drop_bpdu then
      [OFMsg.flowDrop .vlan { eth_dst := some bpduMac1 } dp.highest_priority none,
       OFMsg.flowDrop .vlan { eth_dst := some bpduMac2 } dp.highest_priority none]
      else []).countP (isLowestDrop dp.lowest_priority t)) = 0 := by
    cases hb : dp.drop_bpdu <;> simp [isLowestDrop, hhighest]
  have hseg5 : ((if dp.drop_lldp then
      [OFMsg.flowDrop .vlan { eth_type := some ethTypeLLDP } dp.highest_priority none]
      else []).countP (isLowestDrop dp.lowest_priority t)) = 0 := by
    cases hb : dp.drop_lldp <;> simp [isLowestDrop, hhighest]
  simp only [addDefaultDropFlows, List.countP_append, hseg1, hseg2, hseg3, hseg4, hseg5]

/-- C1: on its own dp_id, datapath_connect's message list begins with the
wildcard flow-delete, ends with the eth_src controller-learn flow, contains
exactly one lowest-priority default drop for every configured table, and
leaves the datapath marked running. -/
theorem datapath_connect_cold_start_complete
    (v v' : Valve) (dpId : Nat) (disc : List Nat) (msgs : List OFMsg)
    (hid : dpId = v.dp.dp_id)
    (hph : v.dp.high_priority ≠ v.dp.lowest_priority)
    (hpt : v.dp.highest_priority ≠ v.dp.lowest_priority)
    (hok : datapathConnect v dpId disc = .ok (v', msgs)) :
    msgs.head? = some (OFMsg.flowDel .wildcard {} none) ∧
    msgs.getLast? = some (OFMsg.flowController .eth_src v.dp.low_priority
      [Instr.gotoTable .eth_dst]) ∧
    (∀ t ∈ allValveTables,
      msgs.countP (isLowestDrop v.dp.lowest_priority t) = 1) ∧
    v'.dp.running = true := by
  subst hid
  simp only [datapathConnect, bne_self_eq_false, Bool.false_eq_true, if_false] at hok
  cases h1 : addPortsAndVlans v disc with
  | error e => simp only [h1, exceptBindErr] at hok; cases hok
  | ok pr =>
    obtain ⟨v1, m2⟩ := pr
    simp only [h1, exceptBindOk, exceptPure] at hok
    injection hok with hok
    injection hok with ha hb
    rcases addPortsAndVlans_ok v v1 disc m2 h1 with ⟨hdrops, ⟨ps, hshape⟩, _⟩
    have hlow : v1.dp.low_priority = v.dp.low_priority := by rw [hshape]
    have hrun : v'.dp.running = true := by rw [← ha]
    have hm2count : ∀ t, m2.countP (isLowestDrop v.dp.lowest_priority t) = 0 := by
      intro t
      rw [List.countP_eq_zero]
      intro x hx
      simp only [Bool.not_eq_true]
      exact hdrops v.dp.lowest_priority t (Ne.symm hpt) x hx
  -- the remaining structure of the message list
    have hmsgs : msgs = addDefaultFlows v.dp ++ m2
        ++ [OFMsg.flowController .eth_src v1.dp.low_priority [Instr.gotoTable .eth_dst]] := by
      rw [← hb]
      rfl
    refine ⟨?_, ?_, ?_, hrun⟩
    · rw [hmsgs]
      rfl
    · rw [hmsgs, List.getLast?_concat, hlow]
    · intro t ht
      have hA : (addDefaultFlows v.dp).countP (isLowestDrop v.dp.lowest_priority t) = 1 := by
        have h0 : ∀ x ∈ deleteAllValveFlows v.dp ++ addPacketinMeter v.dp
            ++ v.dp.meters.map (fun kv => OFMsg.meterEntry kv.2),
            isLowestDrop v.dp.lowest_priority t x = false := by
          intro x hx
          rcases List.mem_append.mp hx with hx | hx
          · rcases List.mem_append.mp hx with hx | hx
            · exact isLowestDrop_of_not_drop (deleteAllValveFlows_no_drop v.dp x hx) _ _
            · exact isLowestDrop_of_not_drop (addPacketinMeter_no_drop v.dp x hx) _ _
          · rcases List.mem_map.mp hx with ⟨kv, _, rfl⟩
            rfl
        have hzero : (deleteAllValveFlows v.dp ++ addPacketinMeter v.dp
            ++ v.dp.meters.map (fun kv => OFMsg.meterEntry kv.2)).countP
              (isLowestDrop v.dp.lowest_priority t) = 0 := by
          rw [List.countP_eq_zero]
          intro x hx
          simp only [Bool.not_eq_true]
          exact h0 x hx
        have hflood : (addVlanFloodFlow v.dp).countP (isLowestDrop v.dp.lowest_priority t)
            = 0 := by
          simp [addVlanFloodFlow, isLowestDrop]
        calc (addDefaultFlows v.dp).countP (isLowestDrop v.dp.lowest_priority t)
            = (deleteAllValveFlows v.dp ++ addPacketinMeter v.dp
                ++ v.dp.meters.map (fun kv => OFMsg.meterEntry kv.2)).countP
                  (isLowestDrop v.dp.lowest_priority t)
              + (addDefaultDropFlows v.dp).countP (isLowestDrop v.dp.lowest_priority t)
              + (addVlanFloodFlow v.dp).countP (isLowestDrop v.dp.lowest_priority t) := by
              simp only [addDefaultFlows, List.countP_append, List.countP_map]
          _ = 1 := by
              rw [hzero, hflood, addDefaultDropFlows_count v.dp t ht hph hpt]
      rw [hmsgs, List.countP_append, List.countP_append, hA, hm2count t]
      simp [isLowestDrop]

/-- Concrete valve for the cold-start witness: scenario S1, one VLAN and
two untagged ports. -/
def vW1 : Valve := { dp := { dp_id := 1, vlans := [(10, { vid := 10, untagged := [1, 2] })], ports := [(1, { number := 1, native_vlan := some 10 }), (2, { number := 2, native_vlan := some 10 })] } }

/-- The result of connecting the witness datapath. -/
def vW1res : Valve × List OFMsg := ((datapathConnect vW1 1 [1, 2]).toOption).getD (vW1, [])

/-- Witness for C1 at the concrete valve vW1. -/
theorem datapath_connect_cold_start_complete_witness :
    (1 = vW1.dp.dp_id ∧ vW1.dp.high_priority ≠ vW1.dp.lowest_priority ∧
      vW1.dp.highest_priority ≠ vW1.dp.lowest_priority) ∧
    (vW1res.2.head? = some (OFMsg.flowDel .wildcard {} none) ∧
     vW1res.2.getLast? = some (OFMsg.flowController .eth_src vW1.dp.low_priority
       [Instr.gotoTable .eth_dst]) ∧
     (∀ t ∈ allValveTables, vW1res.2.countP (isLowestDrop vW1.dp.lowest_priority t) = 1) ∧
     vW1res.1.dp.running = true) :=
  ⟨⟨rfl, by decide, by decide⟩,
   datapath_connect_cold_start_complete vW1 vW1res.1 1 [1, 2] vW1res.2 rfl
     (by decide) (by decide) rfl⟩

/-- Boolean Nat equality agrees with the decision procedure. -/
theorem natBeqDecide (a b : Nat) : (a == b) = decide (a = b) := by
  cases hc : a == b with
  | false =>
    have hne : ¬ a = b := by simpa using hc
    simp [hne]
  | true =>
    have he : a = b := by simpa using hc
    simp [he]

/-- State characterization of the rate limiter: only the two clock fields
change; the counter resets on a wall-clock tick and is incremented; the
limit verdict is the ignore_learn_ins multiple test. -/
theorem rateLimit_state (v : Valve) (nowSec : Nat) :
    (rateLimitPacketIns v nowSec).1.dp = v.dp ∧
    (rateLimitPacketIns v nowSec).1.l3 = v.l3 ∧
    (rateLimitPacketIns v nowSec).1.lastPacketInSec = nowSec ∧
    (rateLimitPacketIns v nowSec).1.packetInCountSec
      = (if v.lastPacketInSec = nowSec then v.packetInCountSec else 0) + 1 ∧
    (rateLimitPacketIns v nowSec).2
      = (v.dp.ignore_learn_ins != 0
          && (rateLimitPacketIns v nowSec).1.packetInCountSec % v.dp.ignore_learn_ins == 0) := by
  by_cases h : v.lastPacketInSec = nowSec <;> simp [rateLimitPacketIns, h, bne, natBeqDecide]

/-- The control-plane message prefix of rcv_packet: only consulted for a
unicast source with L3 active. -/
def cpPrefix (v : Valve) (vl : Vlan) (pm : PacketMeta) : List OFMsg :=
  if macIsUnicast pm.eth_src && v.l3 then controlPlaneHandler vl pm else []

/-- C9: when the per-second packet-in counter (reset on a wall-clock tick,
incremented per call) lands on an ignore_learn_ins multiple, rcv_packet
returns only the control-plane messages accumulated so far: no ban checks,
no host learning, no FIB installs, and no state change beyond the rate
counter. -/
theorem rcv_packet_rate_limited
    (v v1 : Valve) (dpId nowSec : Nat) (valves : List (Nat × Valve)) (pm : PacketMeta)
    (vl : Vlan)
    (hknown : knownUpDpidAndPort v dpId pm.portNum = true)
    (hvl : v.dp.vlans.lookup pm.vlanVid = some vl)
    (hrl : rateLimitPacketIns v nowSec = (v1, true)) :
    rcvPacket v dpId valves pm nowSec = .ok (v1, cpPrefix v vl pm) ∧
    v1.dp = v.dp ∧
    v1.lastPacketInSec = nowSec ∧
    v1.packetInCountSec = (if v.lastPacketInSec = nowSec then v.packetInCountSec else 0) + 1 ∧
    v.dp.ignore_learn_ins ≠ 0 ∧
    v1.packetInCountSec % v.dp.ignore_learn_ins = 0 := by
  rcases rateLimit_state v nowSec with ⟨hdp, hl3, hlast, hcount, hverdict⟩
  rw [hrl] at hdp hl3 hlast hcount hverdict
  have hcond : (v.dp.ignore_learn_ins != 0
      && v1.packetInCountSec % v.dp.ignore_learn_ins == 0) = true := hverdict.symm
  rw [Bool.and_eq_true] at hcond
  refine ⟨?_, hdp, hlast, hcount, by simpa using hcond.1, by simpa using hcond.2⟩
  simp only [rcvPacket, hknown, Bool.not_true, Bool.false_eq_true, if_false, hvl, hrl,
    if_true, if_pos rfl]
  rfl

/-- Concrete valve for the rate-limit witness: ignore_learn_ins = 2,
running, one VLAN with two ports (scenario S3). -/
def vW9a : Valve := { dp := { dp_id := 1, ignore_learn_ins := 2, running := true, vlans := [(10, { vid := 10, untagged := [1, 2] })], ports := [(1, { number := 1, native_vlan := some 10 }), (2, { number := 2, native_vlan := some 10 })] } }

/-- First packet-in of the witness second. -/
def pmW9A : PacketMeta := { portNum := 1, vlanVid := 10, eth_src := 0xaaaaaaaaaaaa, eth_dst := 0xbbbbbbbbbbbb }

/-- Second packet-in, same wall-clock second, new MAC. -/
def pmW9B : PacketMeta := { portNum := 2, vlanVid := 10, eth_src := 0xcccccccccccc, eth_dst := 0xbbbbbbbbbbbb }

/-- Valve state after the first packet-in of the witness second. -/
def vW9b : Valve := ((rcvPacket vW9a 1 [] pmW9A 100).toOption.map (fun r => r.1)).getD vW9a

/-- The VLAN as configured in the witness state. -/
def vlW9 : Vlan := (vW9b.dp.vlans.lookup 10).getD { vid := 10 }

/-- Witness for C9: with ignore_learn_ins = 2, the second packet-in within
one wall-clock second returns early with no learn flows. -/
theorem rcv_packet_rate_limited_witness :
    (knownUpDpidAndPort vW9b 1 pmW9B.portNum = true ∧
     vW9b.dp.vlans.lookup pmW9B.vlanVid = some vlW9 ∧
     rateLimitPacketIns vW9b 100 = ((rateLimitPacketIns vW9b 100).1, true)) ∧
    (rcvPacket vW9b 1 [] pmW9B 100
        = .ok ((rateLimitPacketIns vW9b 100).1, cpPrefix vW9b vlW9 pmW9B) ∧
      (rateLimitPacketIns vW9b 100).1.dp = vW9b.dp ∧
      (rateLimitPacketIns vW9b 100).1.lastPacketInSec = 100 ∧
      (rateLimitPacketIns vW9b 100).1.packetInCountSec
        = (if vW9b.lastPacketInSec = 100 then vW9b.packetInCountSec else 0) + 1 ∧
      vW9b.dp.ignore_learn_ins ≠ 0 ∧
      (rateLimitPacketIns vW9b 100).1.packetInCountSec % vW9b.dp.ignore_learn_ins = 0) :=
  ⟨⟨by decide, by decide, by decide⟩,
   rcv_packet_rate_limited vW9b (rateLimitPacketIns vW9b 100).1 1 100 [] pmW9B vlW9
     (by decide) (by decide) (by decide)⟩

/-- C6: when the number of MACs learned on the ingress port already equals
port.max_hosts, rcv_packet (past the rate limiter) emits the port learn-ban
drop, increments the port's learn_ban_count, and skips the per-VLAN check
and host learning entirely: the VLANs (host caches and VLAN ban counters)
are untouched and the output carries nothing beyond the control-plane
prefix and the ban. -/
theorem rcv_packet_port_learn_ban
    (v v1 : Valve) (dpId nowSec : Nat) (valves : List (Nat × Valve)) (pm : PacketMeta)
    (vl : Vlan) (port : Port)
    (hknown : knownUpDpidAndPort v dpId pm.portNum = true)
    (hvl : v.dp.vlans.lookup pm.vlanVid = some vl)
    (hrl : rateLimitPacketIns v nowSec = (v1, false))
    (hport : v.dp.ports.lookup pm.portNum = some port)
    (hmax : port.max_hosts = some (getEthSrcsLearnedOnPort v.dp pm.portNum).length) :
    ∃ v2, rcvPacket v dpId valves pm nowSec
        = .ok (v2, cpPrefix v vl pm ++ [tempBanOnPortMsg v.dp pm.portNum]) ∧
      v2.dp.ports.lookup pm.portNum
        = some { port with learn_ban_count := port.learn_ban_count + 1 } ∧
      v2.dp.vlans = v.dp.vlans := by
  rcases rateLimit_state v nowSec with ⟨hdp0, hl30, _, _, _⟩
  rw [hrl] at hdp0 hl30
  have hdp1 : v1.dp = v.dp := hdp0
  have hl31 : v1.l3 = v.l3 := hl30
  have hban : portLearnBanRules v1 pm
      = ({ v1 with dp := (v1.dp.updPort pm.portNum
            (fun p => { p with learn_ban_count := p.learn_ban_count + 1 })) },
         [tempBanOnPortMsg v1.dp pm.portNum]) := by
    simp [portLearnBanRules, hdp1, hport, hmax]
  refine ⟨{ v1 with dp := (v1.dp.updPort pm.portNum
      (fun p => { p with learn_ban_count := p.learn_ban_count + 1 })) }, ?_, ?_, ?_⟩
  · simp only [rcvPacket, hknown, Bool.not_true, Bool.false_eq_true, if_false, hvl, hrl,
      hban, List.isEmpty_cons, Bool.not_false, if_true, if_pos rfl]
    rw [hdp1]
    rfl
  · have h := lookup_condMap v1.dp.ports pm.portNum
      (fun p => ({ p with learn_ban_count := p.learn_ban_count + 1 } : Port))
    have hport1 : v1.dp.ports.lookup pm.portNum = some port := by rw [hdp1]; exact hport
    rw [hport1] at h
    exact h
  · show (v1.dp.updPort pm.portNum _).vlans = v.dp.vlans
    rw [show (v1.dp.updPort pm.portNum
      (fun p => { p with learn_ban_count := p.learn_ban_count + 1 })).vlans
        = v1.dp.vlans from rfl, hdp1]

/-- Concrete port for the port-ban witness: max_hosts = 1. -/
def portW6 : Port := { number := 1, native_vlan := some 10, max_hosts := some 1 }

/-- Concrete valve for the port-ban witness: one MAC already learned on
port 1. -/
def vW6 : Valve := { dp := { dp_id := 1, running := true, vlans := [(10, { vid := 10, untagged := [1, 2], host_cache := [(0xaaaaaaaaaaaa, { portNum := 1, cacheTime := 50, edge := true })] })], ports := [(1, portW6), (2, { number := 2, native_vlan := some 10 })] } }

/-- A new source MAC arriving on the saturated port 1. -/
def pmW6 : PacketMeta := { portNum := 1, vlanVid := 10, eth_src := 0xdddddddddddd, eth_dst := 0xbbbbbbbbbbbb }

/-- The VLAN as configured in the port-ban witness. -/
def vlW6 : Vlan := (vW6.dp.vlans.lookup 10).getD { vid := 10 }

/-- Witness for C6 at the concrete valve vW6. -/
theorem rcv_packet_port_learn_ban_witness :
    (knownUpDpidAndPort vW6 1 pmW6.portNum = true ∧
     vW6.dp.vlans.lookup pmW6.vlanVid = some vlW6 ∧
     rateLimitPacketIns vW6 100 = ((rateLimitPacketIns vW6 100).1, false) ∧
     vW6.dp.ports.lookup pmW6.portNum = some portW6 ∧
     portW6.max_hosts = some (getEthSrcsLearnedOnPort vW6.dp pmW6.portNum).length) ∧
    (∃ v2, rcvPacket vW6 1 [] pmW6 100
        = .ok (v2, cpPrefix vW6 vlW6 pmW6 ++ [tempBanOnPortMsg vW6.dp pmW6.portNum]) ∧
      v2.dp.ports.lookup pmW6.portNum
        = some { portW6 with learn_ban_count := portW6.learn_ban_count + 1 } ∧
      v2.dp.vlans = vW6.dp.vlans) :=
  ⟨⟨by decide, by decide, by decide, by decide, by decide⟩,
   rcv_packet_port_learn_ban vW6 (rateLimitPacketIns vW6 100).1 1 100 [] pmW6 vlW6 portW6
     (by decide) (by decide) (by decide) (by decide) (by decide)⟩

/-- Lookup through updVlan under a projection the update preserves. -/
theorem updVlan_lookup_map {γ : Type} (dp : DP) (vid w : Nat) (f : Vlan → Vlan) (g : Vlan → γ)
    (hg : ∀ x, g (f x) = g x) :
    ((dp.updVlan vid f).vlans.lookup w).map g = (dp.vlans.lookup w).map g := by
  by_cases hw : w = vid
  · subst hw
    have h := lookup_condMap dp.vlans w f
    have : ((dp.updVlan w f).vlans.lookup w).map g = ((dp.vlans.lookup w).map f).map g :=
      congrArg (fun o => o.map g) h
    rw [this]
    cases dp.vlans.lookup w with
    | none => rfl
    | some x => simp [hg]
  · have h := lookup_condMap_ne dp.vlans f hw
    exact congrArg (fun o => o.map g) h

/-- C2: with the VLAN's host cache holding exactly max_hosts distinct MACs,
a packet-in (past the rate limiter, with the per-port cap not hit) from a
MAC not in the cache emits the VLAN learn-ban, increments the VLAN's
learn_ban_count and leaves every host cache unchanged; for a MAC already
in the cache no VLAN ban is emitted and learning proceeds (the cache entry
is refreshed and the learn flows are installed). -/
theorem rcv_packet_vlan_host_cap
    (v v1 : Valve) (dpId nowSec : Nat) (valves : List (Nat × Valve)) (pm : PacketMeta)
    (vl : Vlan) (port : Port) (n : Nat)
    (hknown : knownUpDpidAndPort v dpId pm.portNum = true)
    (hvl : v.dp.vlans.lookup pm.vlanVid = some vl)
    (hrl : rateLimitPacketIns v nowSec = (v1, false))
    (hport : v.dp.ports.lookup pm.portNum = some port)
    (hnoban : ¬ port.max_hosts = some (getEthSrcsLearnedOnPort v.dp pm.portNum).length)
    (hN : vl.max_hosts = some n)
    (hcount : vl.host_cache.length = n)
    (hkeys : (vl.host_cache.map Prod.fst).Nodup) :
    (vl.host_cache.lookup pm.eth_src = none →
      ∃ v3, rcvPacket v dpId valves pm nowSec
          = .ok (v3, cpPrefix v vl pm ++ [tempBanOnVlanMsg v.dp pm.vlanVid]) ∧
        v3.dp.vlans.lookup pm.vlanVid
          = some { vl with learn_ban_count := vl.learn_ban_count + 1 } ∧
        (∀ w, (v3.dp.vlans.lookup w).map Vlan.host_cache
          = (v.dp.vlans.lookup w).map Vlan.host_cache)) ∧
    (∀ e, vl.host_cache.lookup pm.eth_src = some e → port.stack = none →
      ∃ v4, rcvPacket v dpId valves pm nowSec
          = .ok (v4, cpPrefix v vl pm
            ++ [OFMsg.flowMod .eth_src { in_port := some pm.portNum, vlan_vid := some (encodeVid pm.vlanVid), eth_src := some pm.eth_src } v.dp.high_priority [Instr.gotoTable .eth_dst],
                OFMsg.flowMod .eth_dst { vlan_vid := some (encodeVid pm.vlanVid), eth_dst := some pm.eth_src } v.dp.high_priority [Instr.applyActions [Action.output pm.portNum]]]
            ++ (if v.l3 && (cpPrefix v vl pm).isEmpty then pm.fibResp else [])) ∧
        v4.dp.vlans.lookup pm.vlanVid
          = some { vl with host_cache := cacheInsert vl.host_cache pm.eth_src { portNum := pm.portNum, cacheTime := nowSec, edge := true } }) := by
  rcases rateLimit_state v nowSec with ⟨hdp0, hl30, _, _, _⟩
  rw [hrl] at hdp0 hl30
  have hdp1 : v1.dp = v.dp := hdp0
  have hl31 : v1.l3 = v.l3 := hl30
  have hnb : (port.max_hosts == some (getEthSrcsLearnedOnPort v.dp pm.portNum).length)
      = false := beq_eq_false_iff_ne.mpr hnoban
  have hpban : portLearnBanRules v1 pm = (v1, []) := by
    simp [portLearnBanRules, hdp1, hport, hnb]
  have hvlD : v1.dp.vlanD pm.vlanVid = vl := by
    simp [DP.vlanD, hdp1, hvl]
  constructor
  · intro hnew
    have hvban : vlanLearnBanRules v1 pm
        = ({ v1 with dp := (v1.dp.updVlan pm.vlanVid
              (fun w => { w with learn_ban_count := w.learn_ban_count + 1 })) },
           [tempBanOnVlanMsg v1.dp pm.vlanVid]) := by
      simp [vlanLearnBanRules, hvlD, hN, hcount, hnew]
    refine ⟨{ v1 with dp := (v1.dp.updVlan pm.vlanVid
        (fun w => { w with learn_ban_count := w.learn_ban_count + 1 })) }, ?_, ?_, ?_⟩
    · simp only [rcvPacket, hknown, Bool.not_true, Bool.false_eq_true, if_false, hvl, hrl,
        hpban, List.isEmpty_nil, Bool.not_false, if_true, if_pos rfl, hvban,
        List.isEmpty_cons]
      rw [hdp1]
      rfl
    · have h := lookup_condMap v1.dp.vlans pm.vlanVid
        (fun w => ({ w with learn_ban_count := w.learn_ban_count + 1 } : Vlan))
      have hvl1 : v1.dp.vlans.lookup pm.vlanVid = some vl := by rw [hdp1]; exact hvl
      rw [hvl1] at h
      exact h
    · intro w
      have h := updVlan_lookup_map v1.dp pm.vlanVid w
        (fun x => ({ x with learn_ban_count := x.learn_ban_count + 1 } : Vlan))
        Vlan.host_cache (fun x => rfl)
      have h2 : (v1.dp.vlans.lookup w).map Vlan.host_cache
          = (v.dp.vlans.lookup w).map Vlan.host_cache := by rw [hdp1]
      exact h.trans h2
  · intro e hold hstack
    have hvban : vlanLearnBanRules v1 pm = (v1, []) := by
      simp [vlanLearnBanRules, hvlD, hold]
    have hlearn : learnHost v1 valves dpId pm nowSec
        = .ok (learnHostOnVlanPort v1 pm.portNum pm.vlanVid pm.eth_src nowSec) := by
      have hport1 : v1.dp.ports.lookup pm.portNum = some port := by rw [hdp1]; exact hport
      simp [learnHost, hport1, hstack, exceptPure]
    refine ⟨(learnHostOnVlanPort v1 pm.portNum pm.vlanVid pm.eth_src nowSec).1, ?_, ?_⟩
    · simp only [rcvPacket, hknown, Bool.not_true, Bool.false_eq_true, if_false, hvl, hrl,
        hpban, List.isEmpty_nil, Bool.not_false, if_true, if_pos rfl, hvban, hlearn,
        exceptBindOk, exceptPure]
      rw [show (learnHostOnVlanPort v1 pm.portNum pm.vlanVid pm.eth_src nowSec).1.l3
          = v.l3 from hl31]
      rw [show (learnHostOnVlanPort v1 pm.portNum pm.vlanVid pm.eth_src nowSec).2
          = [OFMsg.flowMod .eth_src { in_port := some pm.portNum, vlan_vid := some (encodeVid pm.vlanVid), eth_src := some pm.eth_src } v.dp.high_priority [Instr.gotoTable .eth_dst],
             OFMsg.flowMod .eth_dst { vlan_vid := some (encodeVid pm.vlanVid), eth_dst := some pm.eth_src } v.dp.high_priority [Instr.applyActions [Action.output pm.portNum]]] from
        by simp [learnHostOnVlanPort, hdp1]]
      rw [show (if macIsUnicast pm.eth_src && v.l3 then controlPlaneHandler vl pm else [])
          = cpPrefix v vl pm from rfl]
      rw [show (!(!(cpPrefix v vl pm).isEmpty)) = (cpPrefix v vl pm).isEmpty from
        Bool.not_not _]
    · have h := lookup_condMap v1.dp.vlans pm.vlanVid
        (fun w => ({ w with host_cache := cacheInsert w.host_cache pm.eth_src { portNum := pm.portNum, cacheTime := nowSec, edge := true } } : Vlan))
      have hvl1 : v1.dp.vlans.lookup pm.vlanVid = some vl := by rw [hdp1]; exact hvl
      rw [hvl1] at h
      exact h

/-- Concrete VLAN for the host-cap witness: max_hosts = 2, two distinct
MACs cached. -/
def vlW2 : Vlan := { vid := 10, untagged := [1, 2], max_hosts := some 2, host_cache := [(0xaaaaaaaaaaaa, { portNum := 1, cacheTime := 50, edge := true }), (0xcccccccccccc, { portNum := 2, cacheTime := 60, edge := true })] }

/-- Concrete ingress port for the host-cap witness (no per-port cap). -/
def portW2 : Port := { number := 2, native_vlan := some 10 }

/-- Concrete valve for the host-cap witness. -/
def vW2 : Valve := { dp := { dp_id := 1, running := true, vlans := [(10, vlW2)], ports := [(1, { number := 1, native_vlan := some 10 }), (2, portW2)] } }

/-- A packet-in on port 2 of the host-cap witness (source MAC chosen per
scenario). -/
def pmW2 : PacketMeta := { portNum := 2, vlanVid := 10, eth_src := 0xeeeeeeeeeeee, eth_dst := 0xbbbbbbbbbbbb }

/-- Witness for C2 at the concrete valve vW2. -/
theorem rcv_packet_vlan_host_cap_witness :
    (knownUpDpidAndPort vW2 1 pmW2.portNum = true ∧
     vW2.dp.vlans.lookup pmW2.vlanVid = some vlW2 ∧
     rateLimitPacketIns vW2 100 = ((rateLimitPacketIns vW2 100).1, false) ∧
     vW2.dp.ports.lookup pmW2.portNum = some portW2 ∧
     ¬ portW2.max_hosts = some (getEthSrcsLearnedOnPort vW2.dp pmW2.portNum).length ∧
     vlW2.max_hosts = some 2 ∧ vlW2.host_cache.length = 2 ∧
     (vlW2.host_cache.map Prod.fst).Nodup) ∧
    ((vlW2.host_cache.lookup pmW2.eth_src = none →
      ∃ v3, rcvPacket vW2 1 [] pmW2 100
          = .ok (v3, cpPrefix vW2 vlW2 pmW2 ++ [tempBanOnVlanMsg vW2.dp pmW2.vlanVid]) ∧
        v3.dp.vlans.lookup pmW2.vlanVid
          = some { vlW2 with learn_ban_count := vlW2.learn_ban_count + 1 } ∧
        (∀ w, (v3.dp.vlans.lookup w).map Vlan.host_cache
          = (vW2.dp.vlans.lookup w).map Vlan.host_cache)) ∧
    (∀ e, vlW2.host_cache.lookup pmW2.eth_src = some e → portW2.stack = none →
      ∃ v4, rcvPacket vW2 1 [] pmW2 100
          = .ok (v4, cpPrefix vW2 vlW2 pmW2
            ++ [OFMsg.flowMod .eth_src { in_port := some pmW2.portNum, vlan_vid := some (encodeVid pmW2.vlanVid), eth_src := some pmW2.eth_src } vW2.dp.high_priority [Instr.gotoTable .eth_dst],
                OFMsg.flowMod .eth_dst { vlan_vid := some (encodeVid pmW2.vlanVid), eth_dst := some pmW2.eth_src } vW2.dp.high_priority [Instr.applyActions [Action.output pmW2.portNum]]]
            ++ (if vW2.l3 && (cpPrefix vW2 vlW2 pmW2).isEmpty then pmW2.fibResp else [])) ∧
        v4.dp.vlans.lookup pmW2.vlanVid
          = some { vlW2 with host_cache := cacheInsert vlW2.host_cache pmW2.eth_src { portNum := pmW2.portNum, cacheTime := 100, edge := true } })) :=
  ⟨⟨by decide, by decide, by decide, by decide, by decide, by decide, by decide, by decide⟩,
   rcv_packet_vlan_host_cap vW2 (rateLimitPacketIns vW2 100).1 1 100 [] pmW2 vlW2 portW2 2
     (by decide) (by decide) (by decide) (by decide) (by decide) (by decide) (by decide)
     (by decide)⟩

/-- C4 (amended): host_expire and resolve_gateways are no-ops when the
datapath is not running: no messages and no state change.  (advertise is
not gated on running; see the counterexample.) -/
theorem periodic_noop_when_not_running (v : Valve) (nowSec : Nat)
    (h : v.dp.running = false) :
    hostExpire v nowSec = v ∧ resolveGateways v nowSec = (v, []) := by
  constructor <;> simp [hostExpire, resolveGateways, h]

/-- Concrete valve for the C4 witness and counterexample: not running, an
advertise interval configured and elapsed, one VLAN with an IPv6 VIP. -/
def vCx4 : Valve := { dp := { dp_id := 3, advertise_interval := 5, running := false, vlans := [(20, { vid := 20, faucet_vips6 := [77] })] } }

/-- Witness for the amended C4 at the concrete valve vCx4. -/
theorem periodic_noop_when_not_running_witness :
    vCx4.dp.running = false ∧
    (hostExpire vCx4 100 = vCx4 ∧ resolveGateways vCx4 100 = (vCx4, [])) :=
  ⟨by decide, periodic_noop_when_not_running vCx4 100 (by decide)⟩

/-- Counterexample to C4 as stated: with running = false, advertise() still
emits router advertisements and mutates the advertisement clock — the
source has no running guard in Valve.advertise. -/
theorem advertise_not_gated_on_running :
    vCx4.dp.running = false ∧
    advertiseOp vCx4 100
      = ({ vCx4 with lastAdvertiseSec := 100 }, [OFMsg.routeMgr (.advertiseRA 20)]) :=
  ⟨rfl, by decide⟩

/-- The only error _add_faucet_vips can raise is the stacking+routing
assertion. -/
theorem addFaucetVips_error (v : Valve) (ipv vid : Nat) (vips : List Nat) (e : ValveErr)
    (h : addFaucetVips v ipv vid vips = .error e) : e = .configContradiction := by
  induction vips generalizing v with
  | nil => simp [addFaucetVips] at h
  | cons a rest ih =>
    simp only [addFaucetVips] at h
    by_cases hs : v.dp.stack.isSome = true
    · rw [if_pos hs] at h
      injection h with h
      exact h.symm
    · rw [if_neg hs] at h
      cases hrec : addFaucetVips { v with l3 := true } ipv vid rest with
      | error e2 =>
        rw [hrec] at h
        injection h with h2
        subst h2
        exact ih _ hrec
      | ok pr =>
        obtain ⟨v2, m2⟩ := pr
        rw [hrec] at h
        cases h

/-- The VIP loop of _add_vlan raises only the assertion. -/
theorem addVlanIpvsLoop_error (v : Valve) (vl : Vlan) (ipvList : List Nat) (e : ValveErr)
    (h : addVlanIpvsLoop v vl ipvList = .error e) : e = .configContradiction := by
  induction ipvList generalizing v with
  | nil => simp [addVlanIpvsLoop, exceptPure] at h
  | cons ipv rest ih =>
    simp only [addVlanIpvsLoop] at h
    cases h1 : addFaucetVips v ipv vl.vid (vl.vipsByIpv ipv) with
    | error e1 =>
      simp only [h1, exceptBindErr] at h
      injection h with h2
      rw [← h2]
      exact addFaucetVips_error _ _ _ _ _ h1
    | ok pr1 =>
      obtain ⟨v1, m1⟩ := pr1
      simp only [h1, exceptBindOk] at h
      cases h2 : addVlanIpvsLoop v1 vl rest with
      | error e2 =>
        simp only [h2, exceptBindErr] at h
        injection h with h3
        subst h3
        exact ih _ h2
      | ok pr2 =>
        obtain ⟨v2, m2⟩ := pr2
        simp only [h2, exceptBindOk, exceptPure] at h
        cases h

/-- _add_vlan raises only the assertion. -/
theorem addVlanOp_error (v : Valve) (vl : Vlan) (e : ValveErr)
    (h : addVlanOp v vl = .error e) : e = .configContradiction := by
  simp only [addVlanOp] at h
  cases h1 : addVlanIpvsLoop v vl vl.ipvs with
  | error e1 =>
    simp only [h1, exceptBindErr] at h
    injection h with h2
    rw [← h2]
    exact addVlanIpvsLoop_error _ _ _ _ h1
  | ok pr =>
    obtain ⟨v1, m1⟩ := pr
    simp only [h1, exceptBindOk, exceptPure] at h
    cases h

/-- The VLAN-configuration loop raises only the assertion. -/
theorem addVlansLoop_error (vls : List (Nat × Vlan)) :
    ∀ (v : Valve) (e : ValveErr), addVlansLoop v vls = .error e → e = .configContradiction := by
  induction vls with
  | nil =>
    intro v e h
    simp [addVlansLoop, exceptPure] at h
  | cons kv rest ih =>
    intro v e h
    simp only [addVlansLoop] at h
    cases h1 : addVlanOp v kv.2 with
    | error e1 =>
      simp only [h1, exceptBindErr] at h
      injection h with h2
      rw [← h2]
      exact addVlanOp_error _ _ _ h1
    | ok pr1 =>
      obtain ⟨v1, m1, ns1⟩ := pr1
      simp only [h1, exceptBindOk] at h
      cases h2 : addVlansLoop v1 rest with
      | error e2 =>
        simp only [h2, exceptBindErr] at h
        injection h with h3
        rw [← h3]
        exact ih _ _ h2
      | ok pr2 =>
        obtain ⟨v2, m2, ns2⟩ := pr2
        simp only [h2, exceptBindOk, exceptPure] at h
        cases h

/-- _add_ports_and_vlans raises only the assertion. -/
theorem addPortsAndVlans_error (v : Valve) (disc : List Nat) (e : ValveErr)
    (h : addPortsAndVlans v disc = .error e) : e = .configContradiction := by
  simp only [addPortsAndVlans] at h
  cases h1 : addVlansLoop v v.dp.vlans with
  | error e1 =>
    simp only [h1, exceptBindErr] at h
    injection h with h2
    rw [← h2]
    exact addVlansLoop_error _ _ _ h1
  | ok pr =>
    obtain ⟨v1, m1, ns1⟩ := pr
    simp only [h1, exceptBindOk, exceptPure] at h
    cases h

/-- datapath_connect raises only the assertion. -/
theorem datapathConnect_error (v : Valve) (dpId : Nat) (disc : List Nat) (e : ValveErr)
    (h : datapathConnect v dpId disc = .error e) : e = .configContradiction := by
  simp only [datapathConnect] at h
  by_cases hid : (dpId != v.dp.dp_id) = true
  · rw [if_pos hid] at h
    cases h
  · rw [if_neg hid] at h
    cases h1 : addPortsAndVlans v disc with
    | error e1 =>
      simp only [h1, exceptBindErr] at h
      injection h with h2
      rw [← h2]
      exact addPortsAndVlans_error _ _ _ h1
    | ok pr =>
      obtain ⟨v1, m1⟩ := pr
      simp only [h1, exceptBindOk, exceptPure] at h
      cases h

/-- The changed-VLAN re-add loop raises only the assertion. -/
theorem readdVlansLoop_error (vids : List Nat) :
    ∀ (v : Valve) (e : ValveErr), readdVlansLoop v vids = .error e → e = .configContradiction := by
  induction vids with
  | nil =>
    intro v e h
    simp [readdVlansLoop, exceptPure] at h
  | cons vid rest ih =>
    intro v e h
    simp only [readdVlansLoop] at h
    cases h1 : addVlanOp v (v.dp.vlanD vid) with
    | error e1 =>
      simp only [h1, exceptBindErr] at h
      injection h with h2
      rw [← h2]
      exact addVlanOp_error _ _ _ h1
    | ok pr1 =>
      obtain ⟨v1, m1, ns1⟩ := pr1
      simp only [h1, exceptBindOk] at h
      cases h2 : readdVlansLoop v1 rest with
      | error e2 =>
        simp only [h2, exceptBindErr] at h
        injection h with h3
        rw [← h3]
        exact ih _ _ h2
      | ok pr2 =>
        obtain ⟨v2, m2⟩ := pr2
        simp only [h2, exceptBindOk, exceptPure] at h
        cases h

/-- _apply_config_changes raises only the assertion. -/
theorem applyConfigChanges_error (v : Valve) (newDp : DP) (ch : Changes) (e : ValveErr)
    (h : applyConfigChanges v newDp ch = .error e) : e = .configContradiction := by
  simp only [applyConfigChanges] at h
  by_cases hall : ch.allPortsChanged = true
  · rw [if_pos hall] at h
    cases h1 : datapathConnect { v with dp := { newDp with running := true } }
        ({ v with dp := { newDp with running := true } } : Valve).dp.dp_id ch.changedPorts with
    | error e1 =>
      simp only [h1, exceptBindErr] at h
      injection h with h2
      rw [← h2]
      exact datapathConnect_error _ _ _ _ h1
    | ok pr =>
      obtain ⟨v2, m⟩ := pr
      simp only [h1, exceptBindOk, exceptPure] at h
      cases h
  · rw [if_neg hall] at h
    cases h1 : readdVlansLoop { v with dp := { newDp with running := true } } ch.changedVlans with
    | error e1 =>
      simp only [h1, exceptBindErr] at h
      injection h with h2
      rw [← h2]
      exact readdVlansLoop_error _ _ _ h1
    | ok pr =>
      obtain ⟨v2, m4⟩ := pr
      simp only [h1, exceptBindOk, exceptPure] at h
      cases h

/-- reload_config raises only the assertion. -/
theorem reloadConfig_error (v : Valve) (newDp : DP) (e : ValveErr)
    (h : reloadConfig v newDp = .error e) : e = .configContradiction := by
  simp only [reloadConfig] at h
  by_cases hr : v.dp.running = true
  · rw [if_pos hr] at h
    exact applyConfigChanges_error _ _ _ _ h
  · rw [if_neg hr] at h
    cases h

/-- _edge_dp_for_host raises only KeyError (a peer datapath without the
packet's VLAN). -/
theorem edgeDpForHost_error (valves : List (Nat × Valve)) :
    ∀ (dpId : Nat) (pm : PacketMeta) (e : ValveErr),
      edgeDpForHost valves dpId pm = .error e → e = .keyError := by
  induction valves with
  | nil =>
    intro dpId pm e h
    simp [edgeDpForHost] at h
  | cons kv rest ih =>
    intro dpId pm e h
    obtain ⟨otherId, otherValve⟩ := kv
    simp only [edgeDpForHost] at h
    by_cases hid : (otherId == dpId) = true
    · rw [if_pos hid] at h
      exact ih dpId pm e h
    · rw [if_neg hid] at h
      cases hvl : otherValve.dp.vlans.lookup pm.vlanVid with
      | none =>
        simp only [hvl] at h
        injection h with h2
        exact h2.symm
      | some vl =>
        simp only [hvl] at h
        cases hhc : vl.host_cache.lookup pm.eth_src with
        | none =>
          simp only [hhc] at h
          exact ih dpId pm e h
        | some host =>
          simp only [hhc] at h
          by_cases hedge : host.edge = true
          · rw [if_pos hedge] at h; cases h
          · rw [if_neg hedge] at h; exact ih dpId pm e h

/-- _learn_host raises only KeyError. -/
theorem learnHost_error (v : Valve) (valves : List (Nat × Valve)) (dpId : Nat)
    (pm : PacketMeta) (nowSec : Nat) (e : ValveErr)
    (h : learnHost v valves dpId pm nowSec = .error e) : e = .keyError := by
  simp only [learnHost] at h
  by_cases hs : ((v.dp.ports.lookup pm.portNum).getD { number := pm.portNum }).stack.isSome
      = true
  · rw [if_pos hs] at h
    cases h1 : edgeDpForHost valves dpId pm with
    | error e1 =>
      simp only [h1, exceptBindErr] at h
      injection h with h2
      rw [← h2]
      exact edgeDpForHost_error _ _ _ _ h1
    | ok od =>
      simp only [h1, exceptBindOk] at h
      cases od <;> simp only [exceptPure] at h <;> cases h
  · rw [if_neg hs] at h
    simp only [exceptPure] at h
    cases h

/-- rcv_packet raises only KeyError. -/
theorem rcvPacket_error (v : Valve) (dpId : Nat) (valves : List (Nat × Valve))
    (pm : PacketMeta) (nowSec : Nat) (e : ValveErr)
    (h : rcvPacket v dpId valves pm nowSec = .error e) : e = .keyError := by
  simp only [rcvPacket] at h
  by_cases hk : (!knownUpDpidAndPort v dpId pm.portNum) = true
  · rw [if_pos hk] at h
    cases h
  · rw [if_neg hk] at h
    cases hvl : v.dp.vlans.lookup pm.vlanVid with
    | none => rw [hvl] at h; cases h
    | some vl =>
      rw [hvl] at h
      rcases h1 : rateLimitPacketIns v nowSec with ⟨v1, lim⟩
      rw [h1] at h
      cases lim with
      | true => simp only [if_pos rfl] at h; cases h
      | false =>
        simp only [Bool.false_eq_true, if_false] at h
        rcases h2 : portLearnBanRules v1 pm with ⟨v2, banP⟩
        rw [h2] at h
        by_cases hbp : (!banP.isEmpty) = true
        · rw [if_pos hbp] at h
          cases h
        · rw [if_neg hbp] at h
          rcases h3 : vlanLearnBanRules v2 pm with ⟨v3, banV⟩
          rw [h3] at h
          by_cases hbv : (!banV.isEmpty) = true
          · rw [if_pos hbv] at h
            cases h
          · rw [if_neg hbv] at h
            cases h4 : learnHost v3 valves dpId pm nowSec with
            | error e1 =>
              simp only [h4, exceptBindErr] at h
              injection h with h5
              rw [← h5]
              exact learnHost_error _ _ _ _ _ _ h4
            | ok pr =>
              obtain ⟨v4, lm⟩ := pr
              simp only [h4, exceptBindOk, exceptPure] at h
              cases h

/-- flow_timeout raises only KeyError, and only when the vid named in the
expired match is not configured; with a configured (or absent) vid it
returns normally. -/
theorem flowTimeout_error_confinement (v : Valve) (t : TableId) (m : FlowMatch) :
    (∀ e, flowTimeout v t m = .error e →
      e = .keyError ∧ (v.dp.vlans.lookup (decodedVid m)).isNone) ∧
    ((v.dp.vlans.lookup (decodedVid m)).isSome →
      ∃ r, flowTimeout v t m = .ok r) := by
  simp only [flowTimeout]
  by_cases ht : (t == TableId.eth_src || t == TableId.eth_dst) = true
  · rw [if_pos ht]
    by_cases hsrc : (m.eth_src.isSome && decodedVid m != 0 && m.in_port.getD 0 != 0) = true
    · rw [if_pos hsrc]
      cases hvl : v.dp.vlans.lookup (decodedVid m) with
      | none =>
        constructor
        · intro e he
          refine ⟨?_, rfl⟩
          injection he with he
          exact he.symm
        · intro hs
          simp at hs
      | some vl =>
        constructor
        · intro e he
          cases he
        · intro hs
          exact ⟨_, rfl⟩
    · rw [if_neg hsrc]
      by_cases hdst : (m.eth_dst.isSome && decodedVid m != 0) = true
      · rw [if_pos hdst]
        cases hvl : v.dp.vlans.lookup (decodedVid m) with
        | none =>
          constructor
          · intro e he
            refine ⟨?_, rfl⟩
            injection he with he
            exact he.symm
          · intro hs
            simp at hs
        | some vl =>
          constructor
          · intro e he
            cases he
          · intro hs
            exact ⟨_, rfl⟩
      · rw [if_neg hdst]
        constructor
        · intro e he
          cases he
        · intro hs
          exact ⟨(v, []), rfl⟩
  · rw [if_neg ht]
    constructor
    · intro e he
      cases he
    · intro hs
      exact ⟨(v, []), rfl⟩

/-- C5 (amended): no public Valve entry point raises anything beyond the
ConfigContradiction assertion at faucet-VIP add and KeyError on an
unconfigured VLAN reference (flow_timeout on a stale flow-removed match,
rcv_packet stack learning scanning a peer datapath); ports_add,
ports_delete, host_expire, resolve_gateways and advertise are total. -/
theorem valve_public_boundary_errors
    (v : Valve) (t : TableId) (m : FlowMatch) (dpId nowSec : Nat)
    (valves : List (Nat × Valve)) (pm : PacketMeta) (newDp : DP) (disc : List Nat) :
    (∀ e, flowTimeout v t m = .error e →
      e = .keyError
        ∧ (v.dp.vlans.lookup (decodedVid m)).isNone) ∧
    ((v.dp.vlans.lookup (decodedVid m)).isSome →
      ∃ r, flowTimeout v t m = .ok r) ∧
    (∀ e, rcvPacket v dpId valves pm nowSec = .error e → e = .keyError) ∧
    (∀ e, reloadConfig v newDp = .error e → e = .configContradiction) ∧
    (∀ e, datapathConnect v dpId disc = .error e → e = .configContradiction) :=
  ⟨(flowTimeout_error_confinement v t m).1,
   (flowTimeout_error_confinement v t m).2,
   fun e he => rcvPacket_error v dpId valves pm nowSec e he,
   fun e he => reloadConfig_error v newDp e he,
   fun e he => datapathConnect_error v dpId disc e he⟩

/-- Counterexample to C5 as stated: flow_timeout on an eth_src flow-removed
match naming VLAN 99 (not configured on vW1's datapath) raises KeyError,
which is not the ConfigContradiction assertion. -/
theorem flow_timeout_raises_keyerror :
    flowTimeout vW1 .eth_src { in_port := some 1, vlan_vid := some (encodeVid 99), eth_src := some 5 }
      = .error .keyError ∧ ValveErr.keyError ≠ ValveErr.configContradiction :=
  ⟨rfl, by decide⟩

/-- Witness for the amended C5: at a configured vid, flow_timeout returns
normally; instantiated from the confinement theorem at concrete inputs. -/
theorem valve_public_boundary_errors_witness :
    (vW1.dp.vlans.lookup (decodedVid { in_port := some 1, vlan_vid := some (encodeVid 10), eth_src := some 5 })).isSome = true ∧
    (∃ r, flowTimeout vW1 .eth_src { in_port := some 1, vlan_vid := some (encodeVid 10), eth_src := some 5 } = .ok r) :=
  ⟨by decide,
   (valve_public_boundary_errors vW1 .eth_src
       { in_port := some 1, vlan_vid := some (encodeVid 10), eth_src := some 5 }
       1 100 [] pmW9A vW1.dp [] ).2.1 (by decide)⟩

/-- The port learn-ban check never touches the L3 flag. -/
theorem portLearnBanRules_l3 (v : Valve) (pm : PacketMeta) :
    (portLearnBanRules v pm).1.l3 = v.l3 := by
  simp only [portLearnBanRules]
  split <;> rfl

/-- The VLAN learn-ban check never touches the L3 flag. -/
theorem vlanLearnBanRules_l3 (v : Valve) (pm : PacketMeta) :
    (vlanLearnBanRules v pm).1.l3 = v.l3 := by
  simp only [vlanLearnBanRules]
  split <;> rfl

/-- Host learning never touches the L3 flag. -/
theorem learnHost_ok_l3 (v v' : Valve) (valves : List (Nat × Valve)) (dpId : Nat)
    (pm : PacketMeta) (nowSec : Nat) (m : List OFMsg)
    (h : learnHost v valves dpId pm nowSec = .ok (v', m)) : v'.l3 = v.l3 := by
  simp only [learnHost] at h
  by_cases hs : ((v.dp.ports.lookup pm.portNum).getD { number := pm.portNum }).stack.isSome
      = true
  · rw [if_pos hs] at h
    cases h1 : edgeDpForHost valves dpId pm with
    | error e1 => simp only [h1, exceptBindErr] at h; cases h
    | ok od =>
      simp only [h1, exceptBindOk] at h
      cases od with
      | none =>
        simp only [exceptPure] at h
        injection h with h
        injection h with ha hb
        rw [← ha]
      | some edge =>
        simp only [exceptPure] at h
        injection h with h
        injection h with ha hb
        rw [← ha]
  · rw [if_neg hs] at h
    simp only [exceptPure] at h
    injection h with h
    injection h with ha hb
    rw [← ha]

/-- rcv_packet never touches the L3 flag. -/
theorem rcvPacket_ok_l3 (v v' : Valve) (dpId : Nat) (valves : List (Nat × Valve))
    (pm : PacketMeta) (nowSec : Nat) (m : List OFMsg)
    (h : rcvPacket v dpId valves pm nowSec = .ok (v', m)) : v'.l3 = v.l3 := by
  simp only [rcvPacket] at h
  by_cases hk : (!knownUpDpidAndPort v dpId pm.portNum) = true
  · rw [if_pos hk] at h
    injection h with h
    injection h with ha hb
    rw [← ha]
  · rw [if_neg hk] at h
    cases hvl : v.dp.vlans.lookup pm.vlanVid with
    | none =>
      simp only [hvl] at h
      injection h with h
      injection h with ha hb
      rw [← ha]
    | some vl =>
      simp only [hvl] at h
      rcases h1 : rateLimitPacketIns v nowSec with ⟨v1, lim⟩
      rw [h1] at h
      have hl1 : v1.l3 = v.l3 := by
        have := (rateLimit_state v nowSec).2.1
        rw [h1] at this
        exact this
      cases lim with
      | true =>
        simp only [if_pos rfl] at h
        injection h with h
        injection h with ha hb
        rw [← ha]
        exact hl1
      | false =>
        simp only [Bool.false_eq_true, if_false] at h
        rcases h2 : portLearnBanRules v1 pm with ⟨v2, banP⟩
        rw [h2] at h
        have hl2 : v2.l3 = v1.l3 := by
          have := portLearnBanRules_l3 v1 pm
          rw [h2] at this
          exact this
        by_cases hbp : (!banP.isEmpty) = true
        · rw [if_pos hbp] at h
          injection h with h
          injection h with ha hb
          rw [← ha]
          rw [hl2, hl1]
        · rw [if_neg hbp] at h
          rcases h3 : vlanLearnBanRules v2 pm with ⟨v3, banV⟩
          rw [h3] at h
          have hl3 : v3.l3 = v2.l3 := by
            have := vlanLearnBanRules_l3 v2 pm
            rw [h3] at this
            exact this
          by_cases hbv : (!banV.isEmpty) = true
          · rw [if_pos hbv] at h
            injection h with h
            injection h with ha hb
            rw [← ha]
            rw [hl3, hl2, hl1]
          · rw [if_neg hbv] at h
            cases h4 : learnHost v3 valves dpId pm nowSec with
            | error e1 => simp only [h4, exceptBindErr] at h; cases h
            | ok pr =>
              obtain ⟨v4, lm⟩ := pr
              simp only [h4, exceptBindOk, exceptPure] at h
              injection h with h
              injection h with ha hb
              rw [← ha]
              rw [learnHost_ok_l3 v3 v4 valves dpId pm nowSec lm h4, hl3, hl2, hl1]

/-- Cache reconciliation on an eth_src flow removal never touches the L3
flag. -/
theorem srcRuleExpire_l3 (v : Valve) (vl : Vlan) (inPort macAddr : Nat) :
    (srcRuleExpire v vl inPort macAddr).1.l3 = v.l3 := by
  simp only [srcRuleExpire]
  split
  · split <;> rfl
  · rfl

/-- flow_timeout never touches the L3 flag. -/
theorem flowTimeout_ok_l3 (v v' : Valve) (t : TableId) (m : FlowMatch) (ms : List OFMsg)
    (h : flowTimeout v t m = .ok (v', ms)) : v'.l3 = v.l3 := by
  simp only [flowTimeout] at h
  by_cases ht : (t == TableId.eth_src || t == TableId.eth_dst) = true
  · rw [if_pos ht] at h
    by_cases hsrc : (m.eth_src.isSome && decodedVid m != 0 && m.in_port.getD 0 != 0) = true
    · rw [if_pos hsrc] at h
      cases hvl : v.dp.vlans.lookup (decodedVid m) with
      | none => simp only [hvl] at h; cases h
      | some vl =>
        simp only [hvl] at h
        injection h with h
        have hfst : (srcRuleExpire v vl (m.in_port.getD 0) (m.eth_src.getD 0)).1 = v' :=
          congrArg Prod.fst h
        rw [← hfst]
        exact srcRuleExpire_l3 v vl _ _
    · rw [if_neg hsrc] at h
      by_cases hdst : (m.eth_dst.isSome && decodedVid m != 0) = true
      · rw [if_pos hdst] at h
        cases hvl : v.dp.vlans.lookup (decodedVid m) with
        | none => simp only [hvl] at h; cases h
        | some vl =>
          simp only [hvl] at h
          injection h with h
          injection h with ha hb
          rw [← ha]
      · rw [if_neg hdst] at h
        injection h with h
        injection h with ha hb
        rw [← ha]
  · rw [if_neg ht] at h
    injection h with h
    injection h with ha hb
    rw [← ha]

/-- The changed-VLAN re-add loop only ever raises the L3 flag. -/
theorem readdVlansLoop_ok_l3 (vids : List Nat) :
    ∀ (v v' : Valve) (m : List OFMsg), readdVlansLoop v vids = .ok (v', m) →
      v.l3 = true → v'.l3 = true := by
  induction vids with
  | nil =>
    intro v v' m h hv
    simp only [readdVlansLoop, exceptPure] at h
    injection h with h
    injection h with ha hb
    rw [← ha]
    exact hv
  | cons vid rest ih =>
    intro v v' m h hv
    simp only [readdVlansLoop] at h
    cases h1 : addVlanOp v (v.dp.vlanD vid) with
    | error e => simp only [h1, exceptBindErr] at h; cases h
    | ok pr1 =>
      obtain ⟨v1, m1, ns1⟩ := pr1
      simp only [h1, exceptBindOk] at h
      cases h2 : readdVlansLoop v1 rest with
      | error e => simp only [h2, exceptBindErr] at h; cases h
      | ok pr2 =>
        obtain ⟨v2, m2⟩ := pr2
        simp only [h2, exceptBindOk, exceptPure] at h
        injection h with h
        injection h with ha hb
        rw [← ha]
        exact ih v1 v2 m2 h2 ((addVlanOp_ok v v1 _ m1 ns1 h1).2.2 hv)

/-- datapath_connect only ever raises the L3 flag. -/
theorem datapathConnect_ok_l3 (v v' : Valve) (dpId : Nat) (disc : List Nat) (m : List OFMsg)
    (h : datapathConnect v dpId disc = .ok (v', m)) : v.l3 = true → v'.l3 = true := by
  intro hv
  simp only [datapathConnect] at h
  by_cases hid : (dpId != v.dp.dp_id) = true
  · rw [if_pos hid] at h
    injection h with h
    injection h with ha hb
    rw [← ha]
    exact hv
  · rw [if_neg hid] at h
    cases h1 : addPortsAndVlans v disc with
    | error e => simp only [h1, exceptBindErr] at h; cases h
    | ok pr =>
      obtain ⟨v1, m1⟩ := pr
      simp only [h1, exceptBindOk, exceptPure] at h
      injection h with h
      injection h with ha hb
      rw [← ha]
      exact (addPortsAndVlans_ok v v1 disc m1 h1).2.2 hv

/-- reload_config only ever raises the L3 flag. -/
theorem reloadConfig_ok_l3 (v v' : Valve) (newDp : DP) (cold : Bool) (m : List OFMsg)
    (h : reloadConfig v newDp = .ok (cold, v', m)) : v.l3 = true → v'.l3 = true := by
  intro hv
  simp only [reloadConfig] at h
  by_cases hr : v.dp.running = true
  · rw [if_pos hr] at h
    simp only [applyConfigChanges] at h
    by_cases hall : (getConfigChanges v.dp newDp).1.allPortsChanged = true
    · rw [if_pos hall] at h
      cases h1 : datapathConnect
          { v with dp := { (getConfigChanges v.dp newDp).2 with running := true } }
          ({ v with dp := { (getConfigChanges v.dp newDp).2 with running := true } }
            : Valve).dp.dp_id (getConfigChanges v.dp newDp).1.changedPorts with
      | error e => simp only [h1, exceptBindErr] at h; cases h
      | ok pr =>
        obtain ⟨v2, m2⟩ := pr
        simp only [h1, exceptBindOk, exceptPure] at h
        injection h with h
        injection h with ha hb
        injection hb with hb hc
        rw [← hb]
        exact datapathConnect_ok_l3 _ v2 _ _ m2 h1 hv
    · rw [if_neg hall] at h
      cases h1 : readdVlansLoop
          { v with dp := { (getConfigChanges v.dp newDp).2 with running := true } }
          (getConfigChanges v.dp newDp).1.changedVlans with
      | error e => simp only [h1, exceptBindErr] at h; cases h
      | ok pr =>
        obtain ⟨v2, m4⟩ := pr
        simp only [h1, exceptBindOk, exceptPure] at h
        injection h with h
        injection h with ha hb
        injection hb with hb hc
        rw [← hb]
        show ({ v2 with dp := _ } : Valve).l3 = true
        exact readdVlansLoop_ok_l3 _ _ v2 m4 h1 hv
  · rw [if_neg hr] at h
    injection h with h
    injection h with ha hb
    injection hb with hb hc
    rw [← hb]
    exact hv

/-- For a unicast source with L3 active, every rcv_packet outcome starts
with the control-plane handler's reply: the control plane is always
consulted first. -/
theorem rcvPacket_cp_leads (v v' : Valve) (dpId : Nat) (valves : List (Nat × Valve))
    (pm : PacketMeta) (nowSec : Nat) (msgs : List OFMsg) (vl : Vlan)
    (hknown : knownUpDpidAndPort v dpId pm.portNum = true)
    (hvl : v.dp.vlans.lookup pm.vlanVid = some vl)
    (huni : (macIsUnicast pm.eth_src && v.l3) = true)
    (h : rcvPacket v dpId valves pm nowSec = .ok (v', msgs)) :
    ∃ rest, msgs = controlPlaneHandler vl pm ++ rest := by
  simp only [rcvPacket, hknown, Bool.not_true, Bool.false_eq_true, if_false, hvl, huni,
    if_pos rfl] at h
  rcases h1 : rateLimitPacketIns v nowSec with ⟨v1, lim⟩
  rw [h1] at h
  cases lim with
  | true =>
    simp only [if_pos rfl] at h
    injection h with h
    injection h with ha hb
    exact ⟨[], by rw [← hb]; simp⟩
  | false =>
    simp only [Bool.false_eq_true, if_false] at h
    rcases h2 : portLearnBanRules v1 pm with ⟨v2, banP⟩
    rw [h2] at h
    by_cases hbp : (!banP.isEmpty) = true
    · rw [if_pos hbp] at h
      injection h with h
      injection h with ha hb
      exact ⟨banP, hb.symm⟩
    · rw [if_neg hbp] at h
      rcases h3 : vlanLearnBanRules v2 pm with ⟨v3, banV⟩
      rw [h3] at h
      by_cases hbv : (!banV.isEmpty) = true
      · rw [if_pos hbv] at h
        injection h with h
        injection h with ha hb
        exact ⟨banV, hb.symm⟩
      · rw [if_neg hbv] at h
        cases h4 : learnHost v3 valves dpId pm nowSec with
        | error e => simp only [h4, exceptBindErr] at h; cases h
        | ok pr =>
          obtain ⟨v4, lm⟩ := pr
          simp only [h4, exceptBindOk, exceptPure] at h
          injection h with h
          injection h with ha hb
          refine ⟨lm ++ (if v4.l3 && !(!(controlPlaneHandler vl pm).isEmpty)
            then pm.fibResp else []), ?_⟩
          rw [← hb]
          simp

/-- With L3 active, a unicast source whose frame the control plane did not
handle, and the call surviving the rate limiter and both learn bans,
rcv_packet ends with the host-FIB route installation messages. -/
theorem rcvPacket_fib_suffix (v v1 v2 v3 v4 : Valve) (dpId : Nat)
    (valves : List (Nat × Valve)) (pm : PacketMeta) (nowSec : Nat) (lm : List OFMsg)
    (vl : Vlan)
    (hknown : knownUpDpidAndPort v dpId pm.portNum = true)
    (hvl : v.dp.vlans.lookup pm.vlanVid = some vl)
    (huni : macIsUnicast pm.eth_src = true)
    (hl3 : v.l3 = true)
    (hcp : controlPlaneHandler vl pm = [])
    (hrl : rateLimitPacketIns v nowSec = (v1, false))
    (hpb : portLearnBanRules v1 pm = (v2, []))
    (hvb : vlanLearnBanRules v2 pm = (v3, []))
    (hlh : learnHost v3 valves dpId pm nowSec = .ok (v4, lm)) :
    rcvPacket v dpId valves pm nowSec = .ok (v4, lm ++ pm.fibResp) := by
  have hl4 : v4.l3 = true := by
    have e1 : v1.l3 = v.l3 := by
      have := (rateLimit_state v nowSec).2.1
      rw [hrl] at this
      exact this
    have e2 : v2.l3 = v1.l3 := by
      have := portLearnBanRules_l3 v1 pm
      rw [hpb] at this
      exact this
    have e3 : v3.l3 = v2.l3 := by
      have := vlanLearnBanRules_l3 v2 pm
      rw [hvb] at this
      exact this
    rw [learnHost_ok_l3 v3 v4 valves dpId pm nowSec lm hlh, e3, e2, e1, hl3]
  simp only [rcvPacket, hknown, Bool.not_true, Bool.false_eq_true, if_false, hvl, huni,
    hl3, Bool.and_true, Bool.and_self, if_pos rfl, hcp, hrl, hpb, hvb, hlh,
    List.isEmpty_nil, Bool.not_false, exceptBindOk, exceptPure, hl4]
  rfl

/-- Each changed VLAN's re-add contributes a contiguous delete-then-add
block to the loop output, all computed against the (already swapped-in)
new DP, which the loop preserves. -/
theorem readdVlansLoop_split (vids : List Nat) :
    ∀ (v v' : Valve) (m : List OFMsg), readdVlansLoop v vids = .ok (v', m) →
      v'.dp = v.dp ∧ ∀ vid ∈ vids, ∃ l1 l2,
        m = l1 ++ (delVlanMsgs (v.dp.vlanD vid) ++ addVlanMsgs v.dp (v.dp.vlanD vid)) ++ l2 := by
  induction vids with
  | nil =>
    intro v v' m h
    simp only [readdVlansLoop, exceptPure] at h
    injection h with h
    injection h with ha hb
    exact ⟨congrArg Valve.dp ha.symm, fun vid hv => absurd hv (List.not_mem_nil vid)⟩
  | cons vid rest ih =>
    intro v v' m h
    simp only [readdVlansLoop] at h
    cases h1 : addVlanOp v (v.dp.vlanD vid) with
    | error e => simp only [h1, exceptBindErr] at h; cases h
    | ok pr1 =>
      obtain ⟨v1, m1, ns1⟩ := pr1
      simp only [h1, exceptBindOk] at h
      cases h2 : readdVlansLoop v1 rest with
      | error e => simp only [h2, exceptBindErr] at h; cases h
      | ok pr2 =>
        obtain ⟨v2, m2⟩ := pr2
        simp only [h2, exceptBindOk, exceptPure] at h
        injection h with h
        injection h with ha hb
        obtain ⟨hm1, hdp1, _⟩ := addVlanOp_ok v v1 _ m1 ns1 h1
        obtain ⟨hdp2, hsp⟩ := ih v1 v2 m2 h2
        refine ⟨?_, ?_⟩
        · rw [← ha, hdp2, hdp1]
        · intro vid' hv
          rcases List.mem_cons.mp hv with he | ht
          · subst he
            exact ⟨[], m2, by rw [← hb, hm1]; simp⟩
          · obtain ⟨l1, l2, hsplit⟩ := hsp vid' ht
            rw [hdp1] at hsplit
            exact ⟨(delVlanMsgs (v.dp.vlanD vid) ++ m1) ++ l1, l2,
              by rw [← hb, hsplit]; simp⟩

/-- Structural VLAN equality is reflexive. -/
theorem vlanStructEq_refl (a : Vlan) : vlanStructEq a a = true := by
  simp [vlanStructEq]

/-- Structural port equality is reflexive. -/
theorem portStructEq_refl (a : Port) : portStructEq a a = true := by
  simp [portStructEq]

/-- A fold whose step fixes every accumulator is the identity. -/
theorem foldl_fixed {α β : Type} (f : α → β → α) (l : List β) (a : α)
    (h : ∀ b ∈ l, ∀ acc, f acc b = acc) : l.foldl f a = a := by
  induction l generalizing a with
  | nil => rfl
  | cons b t ih =>
    rw [List.foldl_cons, h b (List.mem_cons_self b t) a]
    exact ih a (fun c hc acc => h c (List.mem_cons_of_mem b hc) acc)

/-- Diffing a DP's ACLs against themselves finds no change. -/
theorem getAclConfigChanges_self (dp : DP) (hnd : (dp.acls.map Prod.fst).Nodup) :
    getAclConfigChanges dp dp = [] := by
  simp only [getAclConfigChanges, List.filterMap_eq_nil_iff]
  intro kv hkv
  simp [lookup_self hnd hkv]

/-- Diffing a DP's VLANs against themselves finds no deletions and no
changes, and merging dynamic state forward reproduces the DP. -/
theorem getVlanConfigChanges_self (dp : DP) (hnd : (dp.vlans.map Prod.fst).Nodup) :
    getVlanConfigChanges dp dp = ([], [], dp) := by
  simp only [getVlanConfigChanges, Prod.mk.injEq]
  refine ⟨?_, ?_, ?_⟩
  · rw [List.filter_eq_nil_iff]
    intro vid hvid
    obtain ⟨kv, hkv, rfl⟩ := List.mem_map.mp hvid
    simp [lookup_self hnd hkv]
  · rw [List.filterMap_eq_nil_iff]
    intro kv hkv
    simp [lookup_self hnd hkv, vlanStructEq_refl]
  · have hmap : dp.vlans.map (fun kv =>
        match dp.vlans.lookup kv.1 with
        | some oldVlan =>
          if vlanStructEq oldVlan kv.2 then (kv.1, kv.2.mergeDyn oldVlan) else kv
        | none => kv) = dp.vlans.map id := by
      apply List.map_congr_left
      intro kv hkv
      simp only [lookup_self hnd hkv, vlanStructEq_refl, if_pos rfl]
      rfl
    rw [hmap, List.map_id]

/-- Diffing a DP's ports against themselves finds nothing; with at least
one configured port the all-ports-changed flag stays off. -/
theorem getPortConfigChanges_self (dp : DP) (hnd : (dp.ports.map Prod.fst).Nodup)
    (hne : dp.ports ≠ []) :
    getPortConfigChanges dp dp [] [] = (false, [], [], []) := by
  simp only [getPortConfigChanges]
  have hbase : dp.ports.foldl
      (fun (acc : List Nat × List Nat) kv =>
        match dp.ports.lookup kv.1 with
        | none => (acc.1 ++ [kv.1], acc.2)
        | some oldPort =>
          if !portStructEq kv.2 oldPort then
            if !portStructEq kv.2 { oldPort with acl_in := kv.2.acl_in } then
              (acc.1 ++ [kv.1], acc.2)
            else (acc.1, acc.2 ++ [kv.1])
          else
            match kv.2.acl_in with
            | some a => if ([] : List Nat).contains a then (acc.1, acc.2 ++ [kv.1]) else acc
            | none => acc)
      ([], []) = ([], []) := by
    apply foldl_fixed
    intro kv hkv acc
    simp only [lookup_self hnd hkv, portStructEq_refl, Bool.not_true, Bool.false_eq_true,
      if_false]
    cases kv.2.acl_in <;> simp
  rw [hbase]
  simp only [List.foldl_nil, Prod.mk.injEq]
  refine ⟨?_, ?_, trivial⟩
  · cases hp : dp.ports with
    | nil => exact absurd hp hne
    | cons kv t => simp [List.all_eq_true]
  · rw [List.filter_eq_nil_iff]
    intro n hn
    obtain ⟨kv, hkv, rfl⟩ := List.mem_map.mp hn
    simp [lookup_self hnd hkv]

/-- Setting running on an already-running DP changes nothing. -/
theorem dp_set_running_self (dp : DP) (h : dp.running = true) :
    { dp with running := true } = dp := by
  rw [← h]

/-- C3: reloading the identical configuration on a running Valve with at
least one configured port is a true no-op: it returns (false, []) and the
Valve is unchanged.  (Association-list keys are assumed distinct, as the
config parser guarantees.) -/
theorem reload_config_idempotent (v : Valve) (hrun : v.dp.running = true)
    (hA : (v.dp.acls.map Prod.fst).Nodup) (hV : (v.dp.vlans.map Prod.fst).Nodup)
    (hP : (v.dp.ports.map Prod.fst).Nodup) (hne : v.dp.ports ≠ []) :
    reloadConfig v v.dp = .ok (false, v, []) := by
  have hvl := getVlanConfigChanges_self v.dp hV
  have hpc := getPortConfigChanges_self v.dp hP hne
  have hac := getAclConfigChanges_self v.dp hA
  have hsr := dp_set_running_self v.dp hrun
  simp only [reloadConfig, hrun, if_pos rfl, getConfigChanges, hac, hvl, hpc,
    applyConfigChanges, hsr, Bool.false_eq_true, if_false, portsDelete,
    bne_self_eq_false, portsDeleteLoop, List.flatMap_nil, List.append_nil,
    readdVlansLoop, portsAdd, portsAddLoop, exceptPure, exceptBindOk]
  rw [if_pos trivial]

/-- A valve whose DP configures a VLAN but no ports: the pathological case
for the all-ports-changed test. -/
def vCx3 : Valve := { dp := { dp_id := 7, running := true, vlans := [(10, { vid := 10 })] } }

/-- Counterexample to unqualified reload idempotence: on a running DP with
no configured ports, reloading the identical configuration reports a cold
start (cold = true) and emits a nonempty message list, because changed_ports
(empty) equals the set of configured port keys (also empty). -/
theorem reload_identical_config_cold_starts :
    (reloadConfig vCx3 vCx3.dp).toOption.map (fun r => (r.1, r.2.2.isEmpty)) =
      some (true, false) := rfl

/-- A running valve with one VLAN and one configured port. -/
def vW3 : Valve := { dp := { dp_id := 3, running := true, vlans := [(10, { vid := 10, untagged := [1] })], ports := [(1, { number := 1, native_vlan := some 10 })] } }

/-- Witness: reloading the identical one-port configuration returns
(false, []) and the identical valve. -/
theorem reload_config_idempotent_witness :
    vW3.dp.running = true ∧ vW3.dp.ports ≠ []
      ∧ reloadConfig vW3 vW3.dp = .ok (false, vW3, []) :=
  ⟨rfl, by decide, reload_config_idempotent vW3 rfl (by decide) (by decide) (by decide)
    (by decide)⟩

/-- A valve with L3 active that rate-limits every packet-in
(ignore_learn_ins = 1). -/
def vCx10 : Valve :=
  { dp := { dp_id := 1, running := true, ignore_learn_ins := 1, vlans := [(10, { vid := 10, untagged := [1] })], ports := [(1, { number := 1, native_vlan := some 10 })] }, l3 := true }

/-- A unicast-source packet for which the route manager would install a
host-FIB route, unhandled by the control plane. -/
def pmCx10 : PacketMeta :=
  { portNum := 1, vlanVid := 10, eth_src := 187649984473770, eth_dst := 206414982921403, fibResp := [OFMsg.routeMgr (.resolveGw 10 4)] }

/-- Counterexample to the trailing clause of the monotone-L3 claim: with L3
active and a unicast source MAC, a rate-limited rcv_packet returns no
messages at all — in particular it skips the host-FIB route installation
even though the control plane left the frame unhandled and the route
manager had a route to install. -/
theorem rcv_packet_skips_fib_when_rate_limited :
    vCx10.l3 = true ∧ macIsUnicast pmCx10.eth_src = true ∧ pmCx10.fibResp ≠ []
      ∧ ∃ v', rcvPacket vCx10 1 [] pmCx10 100 = .ok (v', []) :=
  ⟨rfl, by decide, by decide, ⟨_, rfl⟩⟩

/-- C10: the L3 flag starts false, is raised by the first successful
faucet-VIP add, and is never reset by datapath_connect,
datapath_disconnect, reload_config, rcv_packet, host_expire,
resolve_gateways, advertise or flow_timeout.  For a unicast source with L3
active, rcv_packet always attempts control-plane handling (its reply leads
the output); the host-FIB installation is attempted only when the packet
also survives the rate limiter and both learn bans and the control plane
left it unhandled. -/
theorem l3_flag_monotone :
    (∀ dp : DP, ({ dp := dp } : Valve).l3 = false)
    ∧ (∀ (v v' : Valve) (ipv vid : Nat) (vips : List Nat) (m : List OFMsg),
        addFaucetVips v ipv vid vips = .ok (v', m) → vips ≠ [] → v'.l3 = true)
    ∧ (∀ (v v' : Valve) (dpId : Nat) (disc : List Nat) (m : List OFMsg),
        datapathConnect v dpId disc = .ok (v', m) → v.l3 = true → v'.l3 = true)
    ∧ (∀ (v : Valve) (dpId : Nat), (datapathDisconnect v dpId).l3 = v.l3)
    ∧ (∀ (v v' : Valve) (newDp : DP) (cold : Bool) (m : List OFMsg),
        reloadConfig v newDp = .ok (cold, v', m) → v.l3 = true → v'.l3 = true)
    ∧ (∀ (v v' : Valve) (dpId : Nat) (valves : List (Nat × Valve)) (pm : PacketMeta)
        (nowSec : Nat) (m : List OFMsg),
        rcvPacket v dpId valves pm nowSec = .ok (v', m) → v'.l3 = v.l3)
    ∧ (∀ (v : Valve) (nowSec : Nat), (hostExpire v nowSec).l3 = v.l3)
    ∧ (∀ (v : Valve) (nowSec : Nat), (resolveGateways v nowSec).1.l3 = v.l3)
    ∧ (∀ (v : Valve) (nowSec : Nat), (advertiseOp v nowSec).1.l3 = v.l3)
    ∧ (∀ (v v' : Valve) (t : TableId) (fm : FlowMatch) (ms : List OFMsg),
        flowTimeout v t fm = .ok (v', ms) → v'.l3 = v.l3)
    ∧ (∀ (v v' : Valve) (dpId : Nat) (valves : List (Nat × Valve)) (pm : PacketMeta)
        (nowSec : Nat) (msgs : List OFMsg) (vl : Vlan),
        knownUpDpidAndPort v dpId pm.portNum = true →
        v.dp.vlans.lookup pm.vlanVid = some vl →
        (macIsUnicast pm.eth_src && v.l3) = true →
        rcvPacket v dpId valves pm nowSec = .ok (v', msgs) →
        ∃ rest, msgs = controlPlaneHandler vl pm ++ rest)
    ∧ (∀ (v v1 v2 v3 v4 : Valve) (dpId : Nat) (valves : List (Nat × Valve))
        (pm : PacketMeta) (nowSec : Nat) (lm : List OFMsg) (vl : Vlan),
        knownUpDpidAndPort v dpId pm.portNum = true →
        v.dp.vlans.lookup pm.vlanVid = some vl →
        macIsUnicast pm.eth_src = true → v.l3 = true →
        controlPlaneHandler vl pm = [] →
        rateLimitPacketIns v nowSec = (v1, false) →
        portLearnBanRules v1 pm = (v2, []) →
        vlanLearnBanRules v2 pm = (v3, []) →
        learnHost v3 valves dpId pm nowSec = .ok (v4, lm) →
        rcvPacket v dpId valves pm nowSec = .ok (v4, lm ++ pm.fibResp)) := by
  refine ⟨fun dp => rfl, ?_, ?_, ?_, ?_, ?_, ?_, ?_, ?_, ?_, ?_, ?_⟩
  · intro v v' ipv vid vips m h hne
    exact (addFaucetVips_ok v v' ipv vid vips m h).2.2.2 hne
  · intro v v' dpId disc m h hv
    exact datapathConnect_ok_l3 v v' dpId disc m h hv
  · intro v dpId
    simp only [datapathDisconnect]
    split <;> rfl
  · intro v v' newDp cold m h hv
    exact reloadConfig_ok_l3 v v' newDp cold m h hv
  · intro v v' dpId valves pm nowSec m h
    exact rcvPacket_ok_l3 v v' dpId valves pm nowSec m h
  · intro v nowSec
    simp only [hostExpire]
    split <;> rfl
  · intro v nowSec
    simp only [resolveGateways]
    split <;> rfl
  · intro v nowSec
    simp only [advertiseOp]
    split <;> rfl
  · intro v v' t fm ms h
    exact flowTimeout_ok_l3 v v' t fm ms h
  · intro v v' dpId valves pm nowSec msgs vl hk hvl hu h
    exact rcvPacket_cp_leads v v' dpId valves pm nowSec msgs vl hk hvl hu h
  · intro v v1 v2 v3 v4 dpId valves pm nowSec lm vl hk hvl hu hl3 hcp hrl hpb hvb hlh
    exact rcvPacket_fib_suffix v v1 v2 v3 v4 dpId valves pm nowSec lm vl hk hvl hu hl3
      hcp hrl hpb hvb hlh

/-- A VIP-less valve for exercising the first faucet-VIP add. -/
def vW10 : Valve := { dp := { dp_id := 5 } }

/-- Witness: adding one IPv4 faucet VIP on a stack-less valve succeeds and
raises the L3 flag. -/
theorem l3_flag_monotone_witness :
    addFaucetVips vW10 4 10 [167772161]
      = .ok ({ vW10 with l3 := true }, [OFMsg.routeMgr (.vipAdd 4 10 167772161)])
    ∧ ({ vW10 with l3 := true } : Valve).l3 = true :=
  ⟨rfl, l3_flag_monotone.2.1 vW10 { vW10 with l3 := true } 4 10 [167772161]
    [OFMsg.routeMgr (.vipAdd 4 10 167772161)] rfl (List.cons_ne_nil _ _)⟩

/-- C7: in a warm reload, every changed VLAN's flows are deleted strictly
before that VLAN's re-added flows (the delete-then-add block is contiguous
in the output, computed against the swapped-in new DP), and the changed
ports are deleted — against the pre-swap DP — strictly before they are
re-added against the post-swap DP. -/
theorem warm_reload_delete_before_add (v v' : Valve) (newDp : DP) (msgs : List OFMsg)
    (hrun : v.dp.running = true)
    (hok : reloadConfig v newDp = .ok (false, v', msgs)) :
    ∃ ch nd', getConfigChanges v.dp newDp = (ch, nd')
      ∧ (∀ vid ∈ ch.changedVlans, ∃ l1 l2,
          msgs = l1 ++ (delVlanMsgs (({ nd' with running := true } : DP).vlanD vid)
            ++ addVlanMsgs { nd' with running := true } (({ nd' with running := true } : DP).vlanD vid)) ++ l2)
      ∧ ∃ v2 m4,
          readdVlansLoop { v with dp := { nd' with running := true } } ch.changedVlans
            = .ok (v2, m4)
          ∧ v2.dp = { nd' with running := true }
          ∧ msgs =
              (portsDelete v.dp v.dp.dp_id ch.deletedPorts).2
              ++ ch.deletedVlans.flatMap (fun vid =>
                  delVlanMsgs ((portsDelete v.dp v.dp.dp_id ch.deletedPorts).1.vlanD vid))
              ++ (portsDelete (portsDelete v.dp v.dp.dp_id ch.deletedPorts).1
                    (portsDelete v.dp v.dp.dp_id ch.deletedPorts).1.dp_id ch.changedPorts).2
              ++ m4
              ++ (portsAdd { nd' with running := true } ({ nd' with running := true } : DP).dp_id ch.changedPorts false).2
              ++ ch.changedAclPorts.flatMap (fun p => portAddAclMsgs
                  (portsAdd { nd' with running := true } ({ nd' with running := true } : DP).dp_id ch.changedPorts false).1 p true) := by
  rcases hgc : getConfigChanges v.dp newDp with ⟨ch, nd'⟩
  refine ⟨ch, nd', rfl, ?_⟩
  simp only [reloadConfig, hrun, if_pos rfl, hgc] at hok
  simp only [applyConfigChanges] at hok
  by_cases hall : ch.allPortsChanged = true
  · rw [if_pos hall] at hok
    cases hc : datapathConnect { v with dp := { nd' with running := true } }
        ({ v with dp := { nd' with running := true } } : Valve).dp.dp_id ch.changedPorts with
    | error e => simp only [hc, exceptBindErr] at hok; cases hok
    | ok pr =>
      obtain ⟨vx, mx⟩ := pr
      simp only [hc, exceptBindOk, exceptPure] at hok
      injection hok with hok
      injection hok with hfst _
      exact Bool.noConfusion hfst
  · rw [if_neg hall] at hok
    rcases hd1 : portsDelete v.dp v.dp.dp_id ch.deletedPorts with ⟨dp1, m1⟩
    simp only [hd1] at hok
    rcases hd3 : portsDelete dp1 dp1.dp_id ch.changedPorts with ⟨dp2, m3⟩
    simp only [hd3] at hok
    cases hr : readdVlansLoop { v with dp := { nd' with running := true } } ch.changedVlans with
    | error e => simp only [hr, exceptBindErr] at hok; cases hok
    | ok pr =>
      obtain ⟨v2, m4⟩ := pr
      simp only [hr, exceptBindOk] at hok
      rcases ha5 : portsAdd v2.dp v2.dp.dp_id ch.changedPorts false with ⟨dp3, m5⟩
      simp only [ha5, exceptPure] at hok
      injection hok with hok
      injection hok with hcold hok
      injection hok with hv' hmsgs
      obtain ⟨hv2dp, hsp⟩ := readdVlansLoop_split ch.changedVlans
        { v with dp := { nd' with running := true } } v2 m4 hr
      rw [show ({ v with dp := { nd' with running := true } } : Valve).dp
            = { nd' with running := true } from rfl] at hv2dp hsp
      refine ⟨?_, v2, m4, rfl, hv2dp, ?_⟩
      · intro vid hvid
        obtain ⟨l1, l2, hsplit⟩ := hsp vid hvid
        refine ⟨m1 ++ ch.deletedVlans.flatMap (fun vid => delVlanMsgs (dp1.vlanD vid))
          ++ m3 ++ l1,
          l2 ++ m5 ++ ch.changedAclPorts.flatMap (fun p => portAddAclMsgs dp3 p true), ?_⟩
        rw [← hmsgs, hsplit]
        simp
      · rw [hv2dp] at ha5
        rw [← hmsgs]
        simp only [ha5]

/-- A running valve with two one-port VLANs, for a warm-reload scenario. -/
def vW7 : Valve := { dp := { dp_id := 4, running := true, vlans := [(10, { vid := 10, untagged := [1] }), (20, { vid := 20, untagged := [2] })], ports := [(1, { number := 1, native_vlan := some 10 }), (2, { number := 2, native_vlan := some 20 })] } }

/-- The same configuration with VLAN 10's FAUCET MAC changed: VLAN 10 (and
its port 1) must be torn down and re-added, VLAN 20 and port 2 left
alone. -/
def dpNew7 : DP := { dp_id := 4, running := false, vlans := [(10, { vid := 10, untagged := [1], faucet_mac := 99 }), (20, { vid := 20, untagged := [2] })], ports := [(1, { number := 1, native_vlan := some 10 }), (2, { number := 2, native_vlan := some 20 })] }

/-- Witness: reloading vW7 with VLAN 10 changed stays warm and places VLAN
10's delete block before its re-added flows. -/
theorem warm_reload_delete_before_add_witness :
    vW7.dp.running = true ∧
    ∃ ch nd' l1 l2 v' msgs,
      reloadConfig vW7 dpNew7 = .ok (false, v', msgs)
      ∧ getConfigChanges vW7.dp dpNew7 = (ch, nd')
      ∧ 10 ∈ ch.changedVlans
      ∧ msgs = l1 ++ (delVlanMsgs (({ nd' with running := true } : DP).vlanD 10)
          ++ addVlanMsgs { nd' with running := true } (({ nd' with running := true } : DP).vlanD 10)) ++ l2 := by
  refine ⟨rfl, ?_⟩
  obtain ⟨ch, nd', hgc, hsp, -⟩ :=
    warm_reload_delete_before_add vW7 _ dpNew7 _ rfl rfl
  have hcv : (10 : Nat) ∈ ch.changedVlans := by
    have h := congrArg (fun p => Changes.changedVlans p.1) hgc
    simp only at h
    rw [← h]
    decide
  obtain ⟨l1, l2, hs⟩ := hsp 10 hcv
  exact ⟨ch, nd', l1, l2, _, _, rfl, hgc, hcv, hs⟩

end Faucet
